import Mathlib

/-!
Verification of the Conversation & Message Orchestration Pipeline of the
meongtamjeongai backend, as a shallow embedding of the Python source.

The embedding follows the source files:
  app/models/{conversation,message,persona,phishing_case,phishing_category}.py
  app/schemas/{message,gemini}.py
  app/crud/{crud_conversation,crud_message,crud_phishing}.py
  app/services/{message_service,gemini_service,conversation_service}.py
  app/api/v1/endpoints/messages.py

Time is a logical clock (Nat); every row insertion stamps the current clock
and advances it, mirroring created_at defaults.  External collaborators
(the Gemini provider, the token counter, S3, SQL random()) are oracles
passed in explicitly.  Each service operation additionally produces a trace
of its externally visible side effects, so ordering and frame claims can be
stated over the trace.
-/

namespace Meong

/-! ## Data model (app/models) -/

/-- app/models/message.py: SenderType enum. -/
inductive SenderType
  | user
  | ai
  | system
deriving DecidableEq, Repr

/-- app/models/message.py: the messages table row. -/
structure Message where
  id : Nat
  conversation_id : Nat
  sender_type : SenderType
  content : String
  image_key : Option String
  gemini_token_usage : Option Nat
  created_at : Nat
deriving DecidableEq, Repr

/-- app/models/conversation.py: the conversations table row. -/
structure Conversation where
  id : Nat
  user_id : Nat
  persona_id : Nat
  title : Option String
  applied_phishing_case_id : Option Nat
  created_at : Nat
  last_message_at : Nat
deriving DecidableEq, Repr

/-- app/models/phishing_case.py: the phishing_cases table row
(fields the pipeline reads). -/
structure PhishingCase where
  id : Nat
  category_code : String
  title : String
  content : String
deriving DecidableEq, Repr

/-- app/models/phishing_category.py: the phishing_categories table row. -/
structure PhishingCategory where
  code : String
  description : String
deriving DecidableEq, Repr

/-- app/models/persona.py: the fields of a persona the pipeline reads. -/
structure Persona where
  id : Nat
  system_prompt : String
  starting_message : Option String
deriving DecidableEq, Repr

/-- app/models/user.py: the only field of a user the pipeline reads. -/
structure AppUser where
  id : Nat
deriving DecidableEq, Repr

/-- The persistent store: one relational database value.  clock is the
logical time used for created_at stamps; the next_* counters model
autoincrement primary keys. -/
structure DB where
  conversations : List Conversation
  messages : List Message
  phishing_cases : List PhishingCase
  categories : List PhishingCategory
  personas : List Persona
  clock : Nat
  next_message_id : Nat
  next_conversation_id : Nat
  next_case_id : Nat
deriving DecidableEq, Repr

/-! ## Schemas (app/schemas) -/

/-- app/schemas/gemini.py: GeminiProgressCheck. -/
structure GeminiProgressCheck where
  status_summary : String
  is_ready_to_move_on : Bool
deriving DecidableEq, Repr

/-- app/schemas/gemini.py: GeminiChatResponse, the structured reply. -/
structure GeminiChatResponse where
  response : String
  suggested_user_questions : List String
  progress_check : GeminiProgressCheck
  token_usage : Nat
  session_end_message : Option String
  next_topic_suggestions : List String
deriving DecidableEq, Repr

/-- app/schemas/message.py: MessageCreate input payload. -/
structure MessageCreate where
  content : Option String
  image_base64 : Option String
deriving DecidableEq, Repr

/-- Python text falsiness after strip(): the string holds no
non-whitespace character (empty strings included). -/
def isBlankText (s : String) : Bool := s.toList.all Char.isWhitespace

/-- app/schemas/message.py: MessageCreate.check_content_or_image_exists.
Python truthiness: a missing, empty or whitespace-only content and a
missing or empty image are both falsy. -/
def MessageCreate.contentOrImageExists (m : MessageCreate) : Bool :=
  !(isBlankText (m.content.getD "") && (m.image_base64.getD "") == "")

/-- app/schemas/message.py: MessageResponse. -/
structure MessageResponse where
  id : Nat
  conversation_id : Nat
  sender_type : SenderType
  content : String
  gemini_token_usage : Option Nat
  created_at : Nat
  image_key : Option String
deriving DecidableEq, Repr

/-- MessageResponse.model_validate over an ORM row. -/
def MessageResponse.ofMessage (m : Message) : MessageResponse :=
  { id := m.id
    conversation_id := m.conversation_id
    sender_type := m.sender_type
    content := m.content
    gemini_token_usage := m.gemini_token_usage
    created_at := m.created_at
    image_key := m.image_key }

/-! ## CRUD layer (app/crud) -/

/-- app/crud/crud_conversation.py get_conversation: select by id, and by
user when a truthy user_id is given (Python: `if user_id:` skips the
filter for None and for 0). -/
def get_conversation (db : DB) (conversation_id : Nat) (user_id : Option Nat) :
    Option Conversation :=
  (db.conversations.filter (fun c =>
    c.id == conversation_id &&
      (match user_id with
       | some u => decide (u = 0) || c.user_id == u
       | none => true))).head?

/-- app/crud/crud_persona.py get_persona (lookup by primary key). -/
def get_persona (db : DB) (persona_id : Nat) : Option Persona :=
  (db.personas.filter (fun p => p.id == persona_id)).head?

/-- app/crud/crud_phishing.py get_phishing_case (lookup by primary key). -/
def get_phishing_case_by_id (db : DB) (case_id : Nat) : Option PhishingCase :=
  (db.phishing_cases.filter (fun p => p.id == case_id)).head?

/-- app/crud/crud_phishing.py get_category_by_code. -/
def get_category_by_code (db : DB) (code : String) : Option PhishingCategory :=
  (db.categories.filter (fun c => c.code == code)).head?

/-- app/crud/crud_phishing.py get_random_phishing_case: uniform random row
among the rows matching the optional category.  The SQL random() draw is
modelled by the ambient pick; an empty match yields none. -/
def get_random_phishing_case (db : DB) (category_code : Option String) (pick : Nat) :
    Option PhishingCase :=
  let matching : List PhishingCase :=
    match category_code with
    | some c => db.phishing_cases.filter (fun p => p.category_code == c)
    | none => db.phishing_cases
  matching[pick % matching.length]?

/-- app/crud/crud_phishing.py create_phishing_case. -/
def create_phishing_case (db : DB) (category_code title content : String) :
    DB × PhishingCase :=
  let p : PhishingCase :=
    { id := db.next_case_id
      category_code := category_code
      title := title
      content := content }
  ({ db with
      phishing_cases := db.phishing_cases ++ [p]
      next_case_id := db.next_case_id + 1 }, p)

/-- app/crud/crud_conversation.py create_conversation: a bare row with no
bound phishing case; created_at and last_message_at default to now. -/
def create_conversation (db : DB) (persona_id : Nat) (title : Option String)
    (user_id : Nat) : DB × Conversation :=
  let c : Conversation :=
    { id := db.next_conversation_id
      user_id := user_id
      persona_id := persona_id
      title := title
      applied_phishing_case_id := none
      created_at := db.clock
      last_message_at := db.clock }
  ({ db with
      conversations := db.conversations ++ [c]
      clock := db.clock + 1
      next_conversation_id := db.next_conversation_id + 1 }, c)

/-- The single conversation mutation both services issue through
crud_conversation.update_conversation / db.commit: assigning
applied_phishing_case_id on the row with the given id. -/
def set_applied_phishing_case (db : DB) (conversation_id : Nat) (case_id : Nat) : DB :=
  { db with
      conversations := db.conversations.map (fun c =>
        if c.id == conversation_id then
          { c with applied_phishing_case_id := some case_id }
        else c) }

/-- Insertion into a list sorted by created_at (ascending). -/
def insertByCreated (m : Message) : List Message → List Message
  | [] => [m]
  | x :: xs =>
      if m.created_at < x.created_at then m :: x :: xs
      else x :: insertByCreated m xs

/-- Sort by created_at ascending, mirroring ORDER BY created_at ASC. -/
def sortByCreatedAsc : List Message → List Message
  | [] => []
  | x :: xs => insertByCreated x (sortByCreatedAsc xs)

/-- app/crud/crud_message.py get_messages_by_conversation. -/
def get_messages_by_conversation (db : DB) (conversation_id : Nat) (skip : Nat)
    (limit : Option Nat) (sort_asc : Bool) : List Message :=
  let base := db.messages.filter (fun m => m.conversation_id == conversation_id)
  let sorted := if sort_asc then sortByCreatedAsc base else (sortByCreatedAsc base).reverse
  let afterSkip := sorted.drop skip
  match limit with
  | some l => afterSkip.take l
  | none => afterSkip

/-- Modelled from the spec: crud_message.create_message is invoked by the
services but its live definition is not under src (app/crud/crud_message.py
keeps only a commented-out version).  Following the spec and that
commented-out version: persist a turn with the given sender role, the given
content (empty string when absent), attachment key and token usage, stamped
with the current creation time. -/
def create_message (db : DB) (message_content : Option String)
    (conversation_id : Nat) (sender_type : SenderType)
    (gemini_token_usage : Option Nat) (image_key : Option String) :
    DB × Message :=
  let m : Message :=
    { id := db.next_message_id
      conversation_id := conversation_id
      sender_type := sender_type
      content := message_content.getD ""
      image_key := image_key
      gemini_token_usage := gemini_token_usage
      created_at := db.clock }
  ({ db with
      messages := db.messages ++ [m]
      clock := db.clock + 1
      next_message_id := db.next_message_id + 1 }, m)

/-- Modelled from the spec: crud_conversation.update_conversation_last_message_at
is invoked by the services but is not defined under src.  Per the spec it is
an atomic touch advancing the conversation last-activity timestamp to the
latest turn creation time (messages are append-only with increasing
created_at, so the last stored turn of the conversation is the latest). -/
def update_conversation_last_message_at (db : DB) (conversation_id : Nat) : DB :=
  match (db.messages.filter (fun m => m.conversation_id == conversation_id)).getLast? with
  | none => db
  | some m =>
      { db with
          conversations := db.conversations.map (fun c =>
            if c.id == conversation_id then { c with last_message_at := m.created_at }
            else c) }

/-! ## AI Response Gateway (app/services/gemini_service.py) -/

/-- One part of a Gemini content: a text part (Part.from_text, whose text
may be the absent user message) or an inline image part with a detected
mime type. -/
inductive GwPart
  | text (t : Option String)
  | image (mime : String)
deriving DecidableEq, Repr

/-- One google.genai types.Content value: a role plus parts. -/
structure GwContent where
  role : String
  parts : List GwPart
deriving DecidableEq, Repr

/-- The raw JSON object a provider reply parses to, before pydantic
validation; every schema field may be present or absent, including a
token_usage the model might volunteer. -/
structure RawJsonReply where
  response : Option String
  suggested_user_questions : Option (List String)
  progress_check : Option GeminiProgressCheck
  token_usage : Option Nat
  session_end_message : Option String
  next_topic_suggestions : Option (List String)
deriving DecidableEq, Repr

/-- The provider-side outcome of one generate_content call. -/
inductive ProviderResult
  | apiError (detail : String)
  | replyNotJson
  | replyJson (raw : RawJsonReply)
deriving DecidableEq, Repr

/-- gemini_service.get_chat_response error taxonomy: ConnectionError when
no client is configured, HTTP 503 on Google API errors, HTTP 500 on a
non-JSON reply and on any other failure (schema validation included). -/
inductive GwError
  | serviceDisabled
  | providerUnavailable (detail : String)
  | invalidJson
  | schemaViolation
deriving DecidableEq, Repr

/-- The HTTP status gemini_service attaches to each raised error
(ConnectionError carries none). -/
def GwError.httpStatus : GwError → Option Nat
  | GwError.serviceDisabled => none
  | GwError.providerUnavailable _ => some 503
  | GwError.invalidJson => some 500
  | GwError.schemaViolation => some 500

/-- The detail string of each gemini_service error. -/
def GwError.detail : GwError → String
  | GwError.serviceDisabled => "AI 서비스를 사용할 수 없습니다. 관리자에게 문의해주세요."
  | GwError.providerUnavailable d => "Google API 오류: " ++ d
  | GwError.invalidJson => "모델로부터 유효한 JSON 응답을 받지 못했습니다."
  | GwError.schemaViolation => "서버 내부 오류가 발생했습니다."

/-- gemini_service.get_chat_response step 1: append the delimited phishing
scenario block to the persona system prompt when a case is bound. -/
def phishing_info_block (pc : PhishingCase) (cat : Option PhishingCategory) : String :=
  "\n---\n[오늘의 피싱 학습 시나리오]\n" ++
  "너는 지금부터 아래 정보를 바탕으로 사용자에게 피싱 공격을 시도하는 역할을 맡아야 해. 자연스러운 대화를 통해 아래 시나리오의 목적을 달성해줘.\n\n" ++
  "- 유형: " ++ (match cat with
                 | some c => c.description
                 | none => "일반 사기") ++ "\n" ++
  "- 제목: " ++ pc.title ++ "\n" ++
  "- 핵심 내용: " ++ pc.content ++ "\n---\n"

/-- The effective system instruction sent in the generation config. -/
def final_system_prompt (system_prompt : String) (pc : Option PhishingCase)
    (cat : Option PhishingCategory) : String :=
  match pc with
  | some c => system_prompt ++ phishing_info_block c cat
  | none => system_prompt

/-- Role tag for a history row: user rows keep role user, every other
sender is tagged model. -/
def roleOfSender : SenderType → String
  | SenderType.user => "user"
  | _ => "model"

/-- gemini_service.get_chat_response steps 2 to 4: the contents list sent
for generation.  The scripted opening is injected as a synthetic leading
model turn only when it is truthy and history is empty; then the history
rows in order; then the current user turn whose parts are the text part
plus, when an image was supplied and decoded (image_mime is its detected
type, none on decode failure, which degrades to text-only), an inline
image part. -/
def contents_for_generation (starting_message : Option String)
    (history : List Message) (user_message : Option String)
    (image_base64 : Option String) (image_mime : Option String) :
    List GwContent :=
  let opening : List GwContent :=
    match starting_message with
    | some s => if s ≠ "" ∧ history = [] then [{ role := "model", parts := [GwPart.text (some s)] }] else []
    | none => []
  let hist : List GwContent := history.map (fun m =>
    { role := roleOfSender m.sender_type, parts := [GwPart.text (some m.content)] })
  let imagePart : List GwPart :=
    match image_base64, image_mime with
    | some _, some mime => [GwPart.image mime]
    | _, _ => []
  opening ++ hist ++ [{ role := "user", parts := GwPart.text user_message :: imagePart }]

/-- gemini_service.get_chat_response step 5: the contents handed to the
separate count_tokens accounting call are exactly the contents assembled
for generation. -/
def token_accounting_contents (starting_message : Option String)
    (history : List Message) (user_message : Option String)
    (image_base64 : Option String) (image_mime : Option String) :
    List GwContent :=
  contents_for_generation starting_message history user_message image_base64 image_mime

/-- The property names of GeminiChatResponse.model_json_schema. -/
def gemini_chat_response_schema_properties : List String :=
  ["response", "suggested_user_questions", "progress_check", "token_usage",
   "session_end_message", "next_topic_suggestions"]

/-- The required names of GeminiChatResponse.model_json_schema (fields
without defaults). -/
def gemini_chat_response_schema_required : List String :=
  ["response", "suggested_user_questions", "progress_check", "token_usage"]

/-- gemini_service.get_chat_response step 6: token_usage is deleted from
the schema properties sent to the provider. -/
def response_schema_sent_properties : List String :=
  gemini_chat_response_schema_properties.erase "token_usage"

/-- gemini_service.get_chat_response step 6: token_usage is removed from
the required list of the schema sent to the provider. -/
def response_schema_sent_required : List String :=
  gemini_chat_response_schema_required.erase "token_usage"

/-- The request data assembled for the generate_content call: effective
system instruction, contents and the pruned response schema. -/
structure GenerateRequest where
  system_instruction : String
  contents : List GwContent
  response_schema_properties : List String
  response_schema_required : List String
deriving DecidableEq, Repr

/-- gemini_service.get_chat_response steps 1 to 7 as data: what is sent to
the provider for generation. -/
def chat_generate_request (system_prompt : String) (history : List Message)
    (user_message : Option String) (image_base64 : Option String)
    (image_mime : Option String) (phishing_case : Option PhishingCase)
    (phishing_category : Option PhishingCategory)
    (starting_message : Option String) : GenerateRequest :=
  { system_instruction := final_system_prompt system_prompt phishing_case phishing_category
    contents := contents_for_generation starting_message history user_message image_base64 image_mime
    response_schema_properties := response_schema_sent_properties
    response_schema_required := response_schema_sent_required }

/-- Pydantic validation GeminiChatResponse(**json_response) after the code
has overwritten json_response token_usage with the counted total: the
three defaultless fields other than token_usage must be present; the raw
token_usage value, whatever the model sent, is never read. -/
def validate_gemini_chat_response (raw : RawJsonReply) (token_usage : Nat) :
    Option GeminiChatResponse :=
  match raw.response, raw.suggested_user_questions, raw.progress_check with
  | some r, some qs, some pc =>
      some { response := r
             suggested_user_questions := qs
             progress_check := pc
             token_usage := token_usage
             session_end_message := raw.session_end_message
             next_topic_suggestions := raw.next_topic_suggestions.getD [] }
  | _, _, _ => none

/-- The text attribute of a part (None on an inline image part). -/
def GwPart.textOf : GwPart → Option String
  | GwPart.text t => t
  | GwPart.image _ => none

/-- The redacted transcript entry returned for diagnostics. -/
structure DebugContent where
  role : String
  parts : List (Option String)
deriving DecidableEq, Repr

/-- gemini_service.get_chat_response: the debug transcript built from the
contents sent (role plus the text of every part). -/
def debug_contents_of (cs : List GwContent) : List DebugContent :=
  cs.map (fun c => { role := c.role, parts := c.parts.map GwPart.textOf })

/-- The ambient state of the gateway: whether a client is configured
(GEMINI_API_KEY present), the token counter, the provider outcome for this
call, and the mime type detected for the supplied image bytes (none when
decoding fails). -/
structure GwOracle where
  available : Bool
  countTokens : List GwContent → Nat
  provider : ProviderResult
  image_mime : Option String

/-- gemini_service.GeminiService.get_chat_response.  Unavailable client
raises ConnectionError before anything else; then the contents are
assembled, tokens are counted by the separate accounting call, and the
provider reply is JSON-parsed and schema-validated; Google API errors map
to 503, a non-JSON body to 500, validation failure to 500. -/
def get_chat_response (o : GwOracle) (system_prompt : String)
    (history : List Message) (user_message : Option String)
    (image_base64 : Option String) (phishing_case : Option PhishingCase)
    (phishing_category : Option PhishingCategory)
    (starting_message : Option String) :
    Except GwError (GeminiChatResponse × List DebugContent) :=
  match o.available with
  | false => Except.error GwError.serviceDisabled
  | true =>
    let request := chat_generate_request system_prompt history user_message
      image_base64 o.image_mime phishing_case phishing_category starting_message
    let total_tokens := o.countTokens (token_accounting_contents starting_message
      history user_message image_base64 o.image_mime)
    match o.provider with
    | ProviderResult.apiError d => Except.error (GwError.providerUnavailable d)
    | ProviderResult.replyNotJson => Except.error GwError.invalidJson
    | ProviderResult.replyJson raw =>
        match validate_gemini_chat_response raw total_tokens with
        | some resp => Except.ok (resp, debug_contents_of request.contents)
        | none => Except.error GwError.schemaViolation

/-! ## Side-effect traces -/

/-- Externally visible side effects of the services, in issue order. -/
inductive Event
  | storeRandomQuery (category_code : Option String)
  | bindCaseWrite (conversation_id : Nat) (case_id : Nat)
  | gatewayCall (user_message : Option String) (has_image : Bool)
  | s3Upload (ok : Bool)
  | insertMessage (conversation_id : Nat) (sender : SenderType)
  | touchConversation (conversation_id : Nat)
  | synthesizeCase (category_code : String)
  | persistCase (category_code : String)
  | createConversationRow (conversation_id : Nat)
deriving DecidableEq, Repr

/-- Events that commit a write to the persistent store. -/
def Event.isPersistenceWrite : Event → Bool
  | Event.bindCaseWrite _ _ => true
  | Event.insertMessage _ _ => true
  | Event.touchConversation _ => true
  | Event.persistCase _ => true
  | Event.createConversationRow _ => true
  | _ => false

/-- Events that persist a message row or touch a conversation timestamp. -/
def Event.isMessageOrTimestampWrite : Event → Bool
  | Event.insertMessage _ _ => true
  | Event.touchConversation _ => true
  | _ => false

/-- The AI gateway invocation event. -/
def Event.isGatewayCall : Event → Bool
  | Event.gatewayCall _ _ => true
  | _ => false

/-! ## Message Exchange Pipeline (app/services/message_service.py) -/

/-- The error values the pipeline returns to its caller. -/
inductive AppError
  | notFound (detail : String)
  | invalidInput (detail : String)
  | httpError (statusCode : Nat) (detail : String)
deriving DecidableEq, Repr

/-- app/schemas/message.py ChatMessageResponse. -/
structure ChatMessageResponse where
  user_message : MessageResponse
  ai_message : MessageResponse
  suggested_user_questions : List String
  is_ready_to_move_on : Bool
  debug_request_contents : List DebugContent
deriving DecidableEq, Repr

/-- Outcome of one SendMessage request: the side-effect trace, the final
persisted state, and the returned value or error. -/
structure SendOutcome where
  trace : List Event
  db : DB
  result : Except AppError ChatMessageResponse

/-- The external nondeterminism of one SendMessage request: the gateway
state, the SQL random() draw used when lazily binding a case, whether the
S3 upload (base64 decode included) succeeds, and the generated uuid stem
of the upload key. -/
structure SendOracle where
  gw : GwOracle
  random_pick : Nat
  s3_ok : Bool
  upload_uuid : String

/-- message_service.send_new_message step 2 tail: read the bound phishing
case; when the conversation has none, draw a random case from the whole
pool and, if one exists, bind and commit it before the gateway call. -/
def resolve_case_step (db : DB) (conv : Conversation) (pick : Nat) :
    DB × List Event × Option PhishingCase :=
  match conv.applied_phishing_case_id.bind (get_phishing_case_by_id db) with
  | some pc => (db, [], some pc)
  | none =>
      match get_random_phishing_case db none pick with
      | some rc =>
          (set_applied_phishing_case db conv.id rc.id,
           [Event.storeRandomQuery none, Event.bindCaseWrite conv.id rc.id],
           some rc)
      | none => (db, [Event.storeRandomQuery none], none)

/-- message_service.MessageService.send_new_message: resolve the
conversation scoped to the requestor, load full ascending history, lazily
bind a random phishing case when none is bound, call the gateway (before
any message write), then on success upload the attachment (failure logged
and swallowed), persist the user turn, touch the conversation, persist the
AI turn with the reply text and token usage, touch again, and compose the
response.  Any ConnectionError or HTTPException from the gateway is
re-raised as HTTP 503 with the inner detail. -/
def send_new_message (db : DB) (conversation_id : Nat)
    (message_in : MessageCreate) (current_user : AppUser) (o : SendOracle) :
    SendOutcome :=
  match get_conversation db conversation_id (some current_user.id) with
  | none =>
      { trace := []
        db := db
        result := Except.error (AppError.notFound "Conversation not found or not accessible.") }
  | some conv =>
      match get_persona db conv.persona_id with
      | none =>
          { trace := []
            db := db
            result := Except.error (AppError.httpError 500 "persona relation missing") }
      | some persona =>
          let history := get_messages_by_conversation db conversation_id 0 none true
          let step := resolve_case_step db conv o.random_pick
          let db1 := step.1
          let trace1 := step.2.1
          let case_to_apply := step.2.2
          let category := case_to_apply.bind (fun pc => get_category_by_code db1 pc.category_code)
          let trace2 := trace1 ++ [Event.gatewayCall message_in.content message_in.image_base64.isSome]
          match get_chat_response o.gw persona.system_prompt history
              message_in.content message_in.image_base64 case_to_apply category
              persona.starting_message with
          | Except.error e =>
              { trace := trace2
                db := db1
                result := Except.error (AppError.httpError 503 e.detail) }
          | Except.ok (resp, dbg) =>
              let s3step : Option String × List Event :=
                match message_in.image_base64 with
                | none => (none, trace2)
                | some _ =>
                    if o.s3_ok then
                      (some ("messages/" ++ o.upload_uuid ++ ".png"),
                       trace2 ++ [Event.s3Upload true])
                    else (none, trace2 ++ [Event.s3Upload false])
              let s3_image_key := s3step.1
              let trace3 := s3step.2
              let um := create_message db1 message_in.content conversation_id
                SenderType.user none s3_image_key
              let db3 := update_conversation_last_message_at um.1 conversation_id
              let am := create_message db3 (some resp.response) conversation_id
                SenderType.ai (some resp.token_usage) none
              let db5 := update_conversation_last_message_at am.1 conversation_id
              { trace := trace3 ++
                  [Event.insertMessage conversation_id SenderType.user,
                   Event.touchConversation conversation_id,
                   Event.insertMessage conversation_id SenderType.ai,
                   Event.touchConversation conversation_id]
                db := db5
                result := Except.ok
                  { user_message := MessageResponse.ofMessage um.2
                    ai_message := MessageResponse.ofMessage am.2
                    suggested_user_questions := resp.suggested_user_questions
                    is_ready_to_move_on := resp.progress_check.is_ready_to_move_on
                    debug_request_contents := dbg } }

/-- app/api/v1/endpoints/messages.py send_new_message_in_conversation plus
the MessageCreate schema validation that runs while parsing the body: a
payload with neither content nor image fails validation; the endpoint then
rejects empty or whitespace-only content before invoking the service. -/
def send_new_message_endpoint (db : DB) (conversation_id : Nat)
    (content image_base64 : Option String) (current_user : AppUser)
    (o : SendOracle) : SendOutcome :=
  if MessageCreate.contentOrImageExists { content := content, image_base64 := image_base64 } = false then
    { trace := []
      db := db
      result := Except.error (AppError.invalidInput "Either content or image_base64 must be provided.") }
  else if isBlankText (content.getD "") then
    { trace := []
      db := db
      result := Except.error (AppError.invalidInput "Message content cannot be empty.") }
  else
    send_new_message db conversation_id
      { content := content, image_base64 := image_base64 } current_user o

/-- message_service.MessageService.create_ai_message: persist an
AI-authored turn (token usage defaults to 0) and touch the conversation. -/
def create_ai_message (db : DB) (conversation_id : Nat) (content : String)
    (token_usage : Nat) : List Event × DB × Message :=
  let cm := create_message db (some content) conversation_id SenderType.ai
    (some token_usage) none
  let db2 := update_conversation_last_message_at cm.1 conversation_id
  ([Event.insertMessage conversation_id SenderType.ai,
    Event.touchConversation conversation_id], db2, cm.2)

/-! ## Conversation Lifecycle Manager (app/services/conversation_service.py) -/

/-- External nondeterminism of StartConversation: the SQL random() draw
and the outcome of gemini_service.generate_phishing_case_on_the_fly (ok
with a generated title and content, or any synthesis failure). -/
structure ConvOracle where
  random_pick : Nat
  synth : Except Unit (String × String)

/-- Outcome of one StartConversation request. -/
structure StartOutcome where
  trace : List Event
  db : DB
  result : Except AppError Conversation

/-- conversation_service.ConversationService._get_or_create_phishing_case.
force_ai_creation queries nothing and always synthesizes and persists a
fresh case for the (required, existing) category; otherwise a random
matching stored case is preferred and synthesis happens only when the
store has none and a category was requested. -/
def get_or_create_phishing_case (db : DB) (category_code : Option String)
    (force_ai_creation : Bool) (o : ConvOracle) :
    List Event × DB × Except AppError (Option PhishingCase) :=
  match force_ai_creation with
  | true =>
    match category_code with
    | none =>
        ([], db, Except.error (AppError.httpError 500 "AI case creation requires a category_code."))
    | some cat =>
        match get_category_by_code db cat with
        | none =>
            ([], db, Except.error (AppError.notFound ("Category " ++ cat ++ " not found.")))
        | some _ =>
            match o.synth with
            | Except.error _ =>
                ([Event.synthesizeCase cat], db,
                 Except.error (AppError.httpError 500 "AI 시나리오 생성 중 오류가 발생했습니다."))
            | Except.ok tc =>
                let created := create_phishing_case db cat tc.1 tc.2
                ([Event.synthesizeCase cat, Event.persistCase cat], created.1,
                 Except.ok (some created.2))
  | false =>
    match get_random_phishing_case db category_code o.random_pick with
    | some pc => ([Event.storeRandomQuery category_code], db, Except.ok (some pc))
    | none =>
        match category_code with
        | none => ([Event.storeRandomQuery category_code], db, Except.ok none)
        | some cat =>
            match get_category_by_code db cat with
            | none =>
                ([Event.storeRandomQuery category_code], db,
                 Except.error (AppError.notFound ("Category " ++ cat ++ " not found.")))
            | some _ =>
                match o.synth with
                | Except.error _ =>
                    ([Event.storeRandomQuery category_code, Event.synthesizeCase cat], db,
                     Except.error (AppError.httpError 500 "AI 시나리오 생성 중 오류가 발생했습니다."))
                | Except.ok tc =>
                    let created := create_phishing_case db cat tc.1 tc.2
                    ([Event.storeRandomQuery category_code, Event.synthesizeCase cat,
                      Event.persistCase cat], created.1,
                     Except.ok (some created.2))

/-- conversation_service.ConversationService._create_conversation_base:
create the bare conversation row, bind the resolved case when present,
then seed the persona scripted opening (when truthy) as an AI turn with
zero token cost and touch the conversation. -/
def create_conversation_base (db : DB) (persona : Persona)
    (current_user : AppUser) (title : Option String)
    (phishing_case : Option PhishingCase) : List Event × DB × Conversation :=
  let created := create_conversation db persona.id title current_user.id
  let conv := created.2
  let bindStep : List Event × DB :=
    match phishing_case with
    | some pc =>
        ([Event.createConversationRow conv.id, Event.bindCaseWrite conv.id pc.id],
         set_applied_phishing_case created.1 conv.id pc.id)
    | none => ([Event.createConversationRow conv.id], created.1)
  let openStep : List Event × DB :=
    match persona.starting_message with
    | some s =>
        if s ≠ "" then
          let seeded := create_ai_message bindStep.2 conv.id s 0
          (seeded.1, seeded.2.1)
        else ([], bindStep.2)
    | none => ([], bindStep.2)
  (bindStep.1 ++ openStep.1, openStep.2, conv)

/-- conversation_service.ConversationService.start_new_conversation
(scenario policy none): resolve a random case over the whole pool, then
run the common creation procedure. -/
def start_new_conversation (db : DB) (persona_id : Nat) (title : Option String)
    (current_user : AppUser) (o : ConvOracle) : StartOutcome :=
  match get_persona db persona_id with
  | none =>
      { trace := []
        db := db
        result := Except.error (AppError.notFound "Persona not found.") }
  | some persona =>
      let resolved := get_or_create_phishing_case db none false o
      match resolved.2.2 with
      | Except.error e =>
          { trace := resolved.1, db := resolved.2.1, result := Except.error e }
      | Except.ok pc =>
          let based := create_conversation_base resolved.2.1 persona current_user title pc
          { trace := resolved.1 ++ based.1
            db := based.2.1
            result := Except.ok based.2.2 }

/-- conversation_service.ConversationService.start_conversation_with_category
(scenario policy category): resolve within the category with synthesis
fallback, then run the common creation procedure. -/
def start_conversation_with_category (db : DB) (persona_id : Nat)
    (category_code : String) (title : Option String) (current_user : AppUser)
    (o : ConvOracle) : StartOutcome :=
  match get_persona db persona_id with
  | none =>
      { trace := []
        db := db
        result := Except.error (AppError.notFound "Persona not found.") }
  | some persona =>
      let resolved := get_or_create_phishing_case db (some category_code) false o
      match resolved.2.2 with
      | Except.error e =>
          { trace := resolved.1, db := resolved.2.1, result := Except.error e }
      | Except.ok pc =>
          let based := create_conversation_base resolved.2.1 persona current_user title pc
          { trace := resolved.1 ++ based.1
            db := based.2.1
            result := Except.ok based.2.2 }

/-- conversation_service.ConversationService.start_conversation_with_ai_case
(scenario policy forceFresh): always synthesize and persist a fresh case
for the category, then run the common creation procedure. -/
def start_conversation_with_ai_case (db : DB) (persona_id : Nat)
    (category_code : String) (title : Option String) (current_user : AppUser)
    (o : ConvOracle) : StartOutcome :=
  match get_persona db persona_id with
  | none =>
      { trace := []
        db := db
        result := Except.error (AppError.notFound "Persona not found.") }
  | some persona =>
      let resolved := get_or_create_phishing_case db (some category_code) true o
      match resolved.2.2 with
      | Except.error e =>
          { trace := resolved.1, db := resolved.2.1, result := Except.error e }
      | Except.ok pc =>
          let based := create_conversation_base resolved.2.1 persona current_user title pc
          { trace := resolved.1 ++ based.1
            db := based.2.1
            result := Except.ok based.2.2 }

/-! ## Derived observables -/

/-- The last-activity timestamp of a conversation as stored. -/
def conversation_last (db : DB) (conversation_id : Nat) : Option Nat :=
  (get_conversation db conversation_id none).map (fun c => c.last_message_at)

/-- The frame of a conversation row: identity, owner, persona, title and
creation time - every field other than the bound case and the
last-activity timestamp. -/
def conversation_frame (c : Conversation) : Nat × Nat × Nat × Option String × Nat :=
  (c.id, c.user_id, c.persona_id, c.title, c.created_at)

/-- The stored frame of the conversation with the given id. -/
def db_conversation_frame (db : DB) (conversation_id : Nat) :
    Option (Nat × Nat × Nat × Option String × Nat) :=
  (get_conversation db conversation_id none).map conversation_frame

/-- The stored bound-scenario reference of the conversation. -/
def conversation_applied (db : DB) (conversation_id : Nat) : Option (Option Nat) :=
  (get_conversation db conversation_id none).map (fun c => c.applied_phishing_case_id)

/-- Whether a conversation row with the given id exists. -/
def conversation_found (db : DB) (conversation_id : Nat) : Bool :=
  (get_conversation db conversation_id none).isSome

/-! ## Spec-side comparator for the token-accounting claim -/

/-- Modelled from the spec (for comparison only, not from the source): the
effective content the spec says the accounting call covers - the system
instruction, an acknowledgment turn, then the assembled content
sequence. -/
def spec_accounting_contents (system_instruction ack : String)
    (assembled : List GwContent) : List GwContent :=
  { role := "user", parts := [GwPart.text (some system_instruction)] } ::
    { role := "model", parts := [GwPart.text (some ack)] } :: assembled

/-! ## Concrete fixtures used by witnesses and counterexamples -/

/-- A conversation owned by user 7 with persona 1 and no bound case. -/
def fxConv : Conversation :=
  { id := 1, user_id := 7, persona_id := 1, title := none,
    applied_phishing_case_id := none, created_at := 0, last_message_at := 0 }

/-- A stored phishing case in category SMISHING. -/
def fxCase : PhishingCase :=
  { id := 1, category_code := "SMISHING", title := "t", content := "c" }

/-- The SMISHING category row. -/
def fxCat : PhishingCategory := { code := "SMISHING", description := "smishing desc" }

/-- A persona with a scripted opening line. -/
def fxPersona : Persona :=
  { id := 1, system_prompt := "sys", starting_message := some "hello" }

/-- The requesting user. -/
def fxUser : AppUser := { id := 7 }

/-- A store holding the single conversation, one case, one category and
one persona. -/
def fxDb : DB :=
  { conversations := [fxConv], messages := [], phishing_cases := [fxCase],
    categories := [fxCat], personas := [fxPersona],
    clock := 1, next_message_id := 1, next_conversation_id := 2, next_case_id := 2 }

/-- The same store with the conversation already bound to case 1. -/
def fxDbBound : DB :=
  { fxDb with conversations :=
      [{ fxConv with applied_phishing_case_id := some 1 }] }

/-- A schema-conforming raw provider reply (the model even volunteers a
bogus token_usage of 999, which must be ignored). -/
def fxRaw : RawJsonReply :=
  { response := some "ai says hi",
    suggested_user_questions := some ["q1"],
    progress_check := some { status_summary := "s", is_ready_to_move_on := false },
    token_usage := some 999,
    session_end_message := none,
    next_topic_suggestions := none }

/-- A raw reply that parses as JSON but misses the required response
field, so schema validation fails. -/
def fxRawBad : RawJsonReply :=
  { response := none,
    suggested_user_questions := some ["q1"],
    progress_check := some { status_summary := "s", is_ready_to_move_on := false },
    token_usage := none,
    session_end_message := none,
    next_topic_suggestions := none }

/-- A healthy gateway: configured client, token counter counting contents,
a schema-conforming reply, decodable png attachment bytes. -/
def fxGwOK : GwOracle :=
  { available := true, countTokens := fun cs => cs.length,
    provider := ProviderResult.replyJson fxRaw, image_mime := some "image/png" }

/-- A healthy full oracle for SendMessage. -/
def fxOracleOK : SendOracle :=
  { gw := fxGwOK, random_pick := 0, s3_ok := true, upload_uuid := "u" }

/-- The oracle with the provider failing with a Google API error. -/
def fxOracleApiError : SendOracle :=
  { fxOracleOK with gw := { fxGwOK with provider := ProviderResult.apiError "down" } }

/-- The oracle with the provider returning a non-JSON body. -/
def fxOracleNotJson : SendOracle :=
  { fxOracleOK with gw := { fxGwOK with provider := ProviderResult.replyNotJson } }

/-- The oracle with a healthy provider but a failing S3 upload. -/
def fxOracleS3Down : SendOracle := { fxOracleOK with s3_ok := false }

/-- A healthy StartConversation oracle whose synthesis succeeds. -/
def fxConvOracle : ConvOracle := { random_pick := 0, synth := Except.ok ("T", "C") }

/-! ## List-level helper lemmas -/

theorem head_filter_proj {α : Type} (l : List Conversation)
    (f : Conversation → Conversation) (g : Conversation → α)
    (p : Conversation → Bool) (hid : ∀ c, p (f c) = p c)
    (hg : ∀ c, p c = true → g (f c) = g c) :
    (((l.map f).filter p).head?).map g = ((l.filter p).head?).map g := by
  induction l with
  | nil => rfl
  | cons c t ih =>
      simp only [List.map_cons, List.filter_cons, hid c]
      cases h : p c
      · simpa using ih
      · simp [hg c h]

theorem head_filter_proj_const {α : Type} (l : List Conversation)
    (f : Conversation → Conversation) (g : Conversation → α)
    (p : Conversation → Bool) (hid : ∀ c, p (f c) = p c) (b : α)
    (hg : ∀ c, p c = true → g (f c) = b) :
    (((l.map f).filter p).head?).map g = ((l.filter p).head?).map (fun _ => b) := by
  induction l with
  | nil => rfl
  | cons c t ih =>
      simp only [List.map_cons, List.filter_cons, hid c]
      cases h : p c
      · simpa using ih
      · simp [hg c h]

theorem head_filter_weaken (l : List Conversation) (p q : Conversation → Bool)
    (hpq : ∀ c, p c = true → q c = true) (conv : Conversation)
    (h : (l.filter p).head? = some conv) : ((l.filter q).head?).isSome = true := by
  induction l with
  | nil => simp [List.filter] at h
  | cons c t ih =>
      simp only [List.filter_cons] at h ⊢
      cases hq : q c
      · have hp : p c = false := by
          cases hp : p c
          · rfl
          · exact absurd (hpq c hp) (by simp [hq])
        simp only [hp, hq] at h ⊢
        simp only [Bool.false_eq_true, if_false] at h ⊢
        exact ih h
      · simp [hq]

theorem getLast?_filter_append_true (l : List Message) (p : Message → Bool)
    (a : Message) (ha : p a = true) :
    ((l ++ [a]).filter p).getLast? = some a := by
  rw [List.filter_append]
  simp only [List.filter, ha]
  exact List.getLast?_concat _

/-! ## Preservation lemmas for the store updates -/

theorem get_conversation_none_eq (db : DB) (x : Nat) :
    get_conversation db x none =
      (db.conversations.filter (fun c => c.id == x)).head? := by
  simp [get_conversation]

theorem conversation_last_set_applied (db : DB) (cid k x : Nat) :
    conversation_last (set_applied_phishing_case db cid k) x =
      conversation_last db x := by
  unfold conversation_last
  rw [get_conversation_none_eq, get_conversation_none_eq]
  exact head_filter_proj db.conversations _ _ _
    (fun c => by cases h : c.id == cid <;> simp [h])
    (fun c _ => by cases h : c.id == cid <;> simp [h])

theorem db_conversation_frame_set_applied (db : DB) (cid k x : Nat) :
    db_conversation_frame (set_applied_phishing_case db cid k) x =
      db_conversation_frame db x := by
  unfold db_conversation_frame
  rw [get_conversation_none_eq, get_conversation_none_eq]
  exact head_filter_proj db.conversations _ _ _
    (fun c => by cases h : c.id == cid <;> simp [h])
    (fun c _ => by cases h : c.id == cid <;> simp [h, conversation_frame])

theorem conversation_applied_set_applied_ne (db : DB) (cid k x : Nat)
    (h : conversation_applied (set_applied_phishing_case db cid k) x ≠
      conversation_applied db x) : x = cid := by
  by_contra hx
  apply h
  unfold conversation_applied
  rw [get_conversation_none_eq, get_conversation_none_eq]
  exact head_filter_proj db.conversations _ _ _
    (fun c => by cases hc : c.id == cid <;> simp [hc])
    (fun c hc => by
      cases hcc : c.id == cid
      · simp [hcc]
      · exfalso
        apply hx
        have h1 : c.id = x := by simpa using hc
        have h2 : c.id = cid := by simpa using hcc
        omega)

theorem touch_messages (db : DB) (cid : Nat) :
    (update_conversation_last_message_at db cid).messages = db.messages := by
  unfold update_conversation_last_message_at
  cases (db.messages.filter (fun m => m.conversation_id == cid)).getLast? <;> rfl

theorem touch_clock (db : DB) (cid : Nat) :
    (update_conversation_last_message_at db cid).clock = db.clock := by
  unfold update_conversation_last_message_at
  cases (db.messages.filter (fun m => m.conversation_id == cid)).getLast? <;> rfl

theorem db_conversation_frame_touch (db : DB) (cid x : Nat) :
    db_conversation_frame (update_conversation_last_message_at db cid) x =
      db_conversation_frame db x := by
  unfold update_conversation_last_message_at
  cases (db.messages.filter (fun m => m.conversation_id == cid)).getLast? with
  | none => rfl
  | some m =>
      unfold db_conversation_frame
      rw [get_conversation_none_eq, get_conversation_none_eq]
      exact head_filter_proj db.conversations _ _ _
        (fun c => by cases h : c.id == cid <;> simp [h])
        (fun c _ => by cases h : c.id == cid <;> simp [h, conversation_frame])

theorem conversation_applied_touch (db : DB) (cid x : Nat) :
    conversation_applied (update_conversation_last_message_at db cid) x =
      conversation_applied db x := by
  unfold update_conversation_last_message_at
  cases (db.messages.filter (fun m => m.conversation_id == cid)).getLast? with
  | none => rfl
  | some m =>
      unfold conversation_applied
      rw [get_conversation_none_eq, get_conversation_none_eq]
      exact head_filter_proj db.conversations _ _ _
        (fun c => by cases h : c.id == cid <;> simp [h])
        (fun c _ => by cases h : c.id == cid <;> simp [h])

theorem conversation_found_eq_of_frame {db1 db2 : DB} {x : Nat}
    (h : db_conversation_frame db1 x = db_conversation_frame db2 x) :
    conversation_found db1 x = conversation_found db2 x := by
  unfold conversation_found
  unfold db_conversation_frame at h
  cases h1 : get_conversation db1 x none <;>
    cases h2 : get_conversation db2 x none <;>
      simp [h1, h2] at h ⊢

theorem conversation_last_touch_eq (db : DB) (cid : Nat) (m : Message)
    (hm : (db.messages.filter (fun x => x.conversation_id == cid)).getLast? = some m)
    (hfound : conversation_found db cid = true) :
    conversation_last (update_conversation_last_message_at db cid) cid =
      some m.created_at := by
  unfold update_conversation_last_message_at
  rw [hm]
  unfold conversation_last
  rw [get_conversation_none_eq]
  unfold conversation_found at hfound
  rw [get_conversation_none_eq] at hfound
  have hproj := head_filter_proj_const db.conversations
    (fun c => if c.id == cid then { c with last_message_at := m.created_at } else c)
    (fun c => c.last_message_at) (fun c => c.id == cid)
    (fun c => by cases h : c.id == cid <;> simp [h]) m.created_at
    (fun c hc => by simp [hc])
  rw [hproj]
  cases h : (db.conversations.filter (fun c => c.id == cid)).head? with
  | none => rw [h] at hfound; simp at hfound
  | some c => simp

/-! ## Lemmas about the lazy case-binding step -/

theorem resolve_case_messages (db : DB) (conv : Conversation) (pick : Nat) :
    (resolve_case_step db conv pick).1.messages = db.messages := by
  unfold resolve_case_step
  cases conv.applied_phishing_case_id.bind (get_phishing_case_by_id db) with
  | some pc => rfl
  | none => cases get_random_phishing_case db none pick <;> rfl

theorem resolve_case_clock (db : DB) (conv : Conversation) (pick : Nat) :
    (resolve_case_step db conv pick).1.clock = db.clock := by
  unfold resolve_case_step
  cases conv.applied_phishing_case_id.bind (get_phishing_case_by_id db) with
  | some pc => rfl
  | none => cases get_random_phishing_case db none pick <;> rfl

theorem resolve_case_next_message_id (db : DB) (conv : Conversation) (pick : Nat) :
    (resolve_case_step db conv pick).1.next_message_id = db.next_message_id := by
  unfold resolve_case_step
  cases conv.applied_phishing_case_id.bind (get_phishing_case_by_id db) with
  | some pc => rfl
  | none => cases get_random_phishing_case db none pick <;> rfl

theorem resolve_case_last (db : DB) (conv : Conversation) (pick x : Nat) :
    conversation_last (resolve_case_step db conv pick).1 x =
      conversation_last db x := by
  unfold resolve_case_step
  cases conv.applied_phishing_case_id.bind (get_phishing_case_by_id db) with
  | some pc => rfl
  | none =>
      cases get_random_phishing_case db none pick with
      | some rc => exact conversation_last_set_applied db conv.id rc.id x
      | none => rfl

theorem resolve_case_frame (db : DB) (conv : Conversation) (pick x : Nat) :
    db_conversation_frame (resolve_case_step db conv pick).1 x =
      db_conversation_frame db x := by
  unfold resolve_case_step
  cases conv.applied_phishing_case_id.bind (get_phishing_case_by_id db) with
  | some pc => rfl
  | none =>
      cases get_random_phishing_case db none pick with
      | some rc => exact db_conversation_frame_set_applied db conv.id rc.id x
      | none => rfl

theorem resolve_case_applied_change (db : DB) (conv : Conversation) (pick x : Nat)
    (h : conversation_applied (resolve_case_step db conv pick).1 x ≠
      conversation_applied db x) :
    x = conv.id ∧
      conv.applied_phishing_case_id.bind (get_phishing_case_by_id db) = none := by
  unfold resolve_case_step at h
  cases hb : conv.applied_phishing_case_id.bind (get_phishing_case_by_id db) with
  | some pc => rw [hb] at h; exact absurd rfl h
  | none =>
      rw [hb] at h
      cases hr : get_random_phishing_case db none pick with
      | some rc =>
          rw [hr] at h
          exact ⟨conversation_applied_set_applied_ne db conv.id rc.id x h, rfl⟩
      | none => rw [hr] at h; exact absurd rfl h

theorem resolve_case_trace_no_msg_writes (db : DB) (conv : Conversation) (pick : Nat) :
    ((resolve_case_step db conv pick).2.1).filter Event.isMessageOrTimestampWrite = [] := by
  unfold resolve_case_step
  cases conv.applied_phishing_case_id.bind (get_phishing_case_by_id db) with
  | some pc => rfl
  | none => cases get_random_phishing_case db none pick <;> rfl

theorem conversation_found_of_get (db : DB) (cid : Nat) (u : Option Nat)
    (conv : Conversation) (h : get_conversation db cid u = some conv) :
    conversation_found db cid = true := by
  unfold conversation_found
  rw [get_conversation_none_eq]
  unfold get_conversation at h
  refine head_filter_weaken db.conversations _ _ (fun c hc => ?_) conv h
  rw [Bool.and_eq_true] at hc
  exact hc.1

theorem resolve_case_found (db : DB) (conv : Conversation) (pick x : Nat) :
    conversation_found (resolve_case_step db conv pick).1 x =
      conversation_found db x :=
  conversation_found_eq_of_frame (resolve_case_frame db conv pick x)

/-! ## Characterization of send_new_message by outcome -/

theorem send_new_message_failure_eq (db : DB) (conversation_id : Nat)
    (message_in : MessageCreate) (current_user : AppUser) (o : SendOracle)
    (conv : Conversation) (persona : Persona) (e : GwError)
    (hconv : get_conversation db conversation_id (some current_user.id) = some conv)
    (hp : get_persona db conv.persona_id = some persona)
    (hgw : get_chat_response o.gw persona.system_prompt
        (get_messages_by_conversation db conversation_id 0 none true)
        message_in.content message_in.image_base64
        (resolve_case_step db conv o.random_pick).2.2
        (((resolve_case_step db conv o.random_pick).2.2).bind
          (fun pc => get_category_by_code (resolve_case_step db conv o.random_pick).1
            pc.category_code))
        persona.starting_message = Except.error e) :
    send_new_message db conversation_id message_in current_user o =
      { trace := (resolve_case_step db conv o.random_pick).2.1 ++
          [Event.gatewayCall message_in.content message_in.image_base64.isSome]
        db := (resolve_case_step db conv o.random_pick).1
        result := Except.error (AppError.httpError 503 e.detail) } := by
  unfold send_new_message
  simp only [hconv, hp, hgw]

theorem send_new_message_success_eq (db : DB) (conversation_id : Nat)
    (message_in : MessageCreate) (current_user : AppUser) (o : SendOracle)
    (conv : Conversation) (persona : Persona) (resp : GeminiChatResponse)
    (dbg : List DebugContent)
    (hconv : get_conversation db conversation_id (some current_user.id) = some conv)
    (hp : get_persona db conv.persona_id = some persona)
    (hgw : get_chat_response o.gw persona.system_prompt
        (get_messages_by_conversation db conversation_id 0 none true)
        message_in.content message_in.image_base64
        (resolve_case_step db conv o.random_pick).2.2
        (((resolve_case_step db conv o.random_pick).2.2).bind
          (fun pc => get_category_by_code (resolve_case_step db conv o.random_pick).1
            pc.category_code))
        persona.starting_message = Except.ok (resp, dbg)) :
    send_new_message db conversation_id message_in current_user o =
      (let db1 := (resolve_case_step db conv o.random_pick).1
       let trace2 := (resolve_case_step db conv o.random_pick).2.1 ++
         [Event.gatewayCall message_in.content message_in.image_base64.isSome]
       let s3step : Option String × List Event :=
         match message_in.image_base64 with
         | none => (none, trace2)
         | some _ =>
             if o.s3_ok then
               (some ("messages/" ++ o.upload_uuid ++ ".png"),
                trace2 ++ [Event.s3Upload true])
             else (none, trace2 ++ [Event.s3Upload false])
       let um := create_message db1 message_in.content conversation_id
         SenderType.user none s3step.1
       let db3 := update_conversation_last_message_at um.1 conversation_id
       let am := create_message db3 (some resp.response) conversation_id
         SenderType.ai (some resp.token_usage) none
       let db5 := update_conversation_last_message_at am.1 conversation_id
       { trace := s3step.2 ++
           [Event.insertMessage conversation_id SenderType.user,
            Event.touchConversation conversation_id,
            Event.insertMessage conversation_id SenderType.ai,
            Event.touchConversation conversation_id]
         db := db5
         result := Except.ok
           { user_message := MessageResponse.ofMessage um.2
             ai_message := MessageResponse.ofMessage am.2
             suggested_user_questions := resp.suggested_user_questions
             is_ready_to_move_on := resp.progress_check.is_ready_to_move_on
             debug_request_contents := dbg } }) := by
  unfold send_new_message
  simp only [hconv, hp, hgw]

/-! ## Further helper lemmas -/

theorem validate_token_eq (raw : RawJsonReply) (t : Nat) (r : GeminiChatResponse)
    (h : validate_gemini_chat_response raw t = some r) : r.token_usage = t := by
  unfold validate_gemini_chat_response at h
  cases hr : raw.response <;> rw [hr] at h <;>
    cases hq : raw.suggested_user_questions <;> rw [hq] at h <;>
      cases hp : raw.progress_check <;> rw [hp] at h <;> simp at h
  rw [← h]

theorem send_failure_consequences (db : DB) (conversation_id : Nat)
    (message_in : MessageCreate) (current_user : AppUser) (o : SendOracle)
    (conv : Conversation) (persona : Persona) (e : GwError)
    (hconv : get_conversation db conversation_id (some current_user.id) = some conv)
    (hp : get_persona db conv.persona_id = some persona)
    (hgw : get_chat_response o.gw persona.system_prompt
        (get_messages_by_conversation db conversation_id 0 none true)
        message_in.content message_in.image_base64
        (resolve_case_step db conv o.random_pick).2.2
        (((resolve_case_step db conv o.random_pick).2.2).bind
          (fun pc => get_category_by_code (resolve_case_step db conv o.random_pick).1
            pc.category_code))
        persona.starting_message = Except.error e) :
    (send_new_message db conversation_id message_in current_user o).result =
        Except.error (AppError.httpError 503 e.detail) ∧
    (send_new_message db conversation_id message_in current_user o).db.messages =
        db.messages ∧
    (∀ x, conversation_last (send_new_message db conversation_id message_in current_user o).db x
        = conversation_last db x) ∧
    ((send_new_message db conversation_id message_in current_user o).trace.filter
        Event.isMessageOrTimestampWrite = []) := by
  rw [send_new_message_failure_eq db conversation_id message_in current_user o
    conv persona e hconv hp hgw]
  refine ⟨rfl, resolve_case_messages db conv o.random_pick,
    fun x => resolve_case_last db conv o.random_pick x, ?_⟩
  show ((resolve_case_step db conv o.random_pick).2.1 ++ _).filter _ = _
  rw [List.filter_append, resolve_case_trace_no_msg_writes]
  rfl

/-! ## Claim C3 -/

/-- Claim C3: a SendMessage input whose text is absent or whitespace-only
and which carries no attachment is rejected as InvalidInput and performs
zero persistence calls, for every conversation, requestor and oracle. -/
theorem C3_empty_input_rejected (db : DB) (conversation_id : Nat)
    (content image_base64 : Option String) (current_user : AppUser)
    (o : SendOracle) (hempty : isBlankText (content.getD "") = true)
    (himg : image_base64 = none) :
    (∃ d, (send_new_message_endpoint db conversation_id content image_base64
        current_user o).result = Except.error (AppError.invalidInput d)) ∧
    ((send_new_message_endpoint db conversation_id content image_base64
        current_user o).trace.filter Event.isPersistenceWrite = []) ∧
    (send_new_message_endpoint db conversation_id content image_base64
        current_user o).db = db := by
  subst himg
  unfold send_new_message_endpoint
  simp [MessageCreate.contentOrImageExists, hempty]

/-- Witness for C3 at a whitespace-only text with no attachment. -/
theorem C3_empty_input_rejected_witness :
    (isBlankText ((some " " : Option String).getD "") = true ∧
      (none : Option String) = none) ∧
    ((∃ d, (send_new_message_endpoint fxDb 1 (some " ") none fxUser fxOracleOK).result
        = Except.error (AppError.invalidInput d)) ∧
     ((send_new_message_endpoint fxDb 1 (some " ") none fxUser fxOracleOK).trace.filter
        Event.isPersistenceWrite = []) ∧
     (send_new_message_endpoint fxDb 1 (some " ") none fxUser fxOracleOK).db = fxDb) :=
  ⟨⟨by decide, rfl⟩,
   C3_empty_input_rejected fxDb 1 (some " ") none fxUser fxOracleOK (by decide) rfl⟩

/-! ## Claim C7 -/

/-- Claim C7 counterexample: the contents handed to the separate
token-accounting call are exactly the assembled generation contents, which
differ from the content the claim describes (system instruction plus an
acknowledgment turn plus the assembled sequence) already at a concrete
one-turn input. -/
theorem C7_accounting_contents_counterexample :
    token_accounting_contents none [] (some "hi") none none =
      contents_for_generation none [] (some "hi") none none ∧
    token_accounting_contents none [] (some "hi") none none ≠
      spec_accounting_contents "sys" "알겠습니다"
        (contents_for_generation none [] (some "hi") none none) :=
  ⟨rfl, by decide⟩

/-- Claim C7 (amended): the reported token usage is computed by the
separate accounting call over exactly the assembled content sequence that
is sent for generation (without the system instruction or any
acknowledgment turn), it is never taken from the model reply (the raw
token_usage field is ignored), and the response schema sent to the
provider contains no usage field. -/
theorem C7_token_accounting (o : GwOracle) (system_prompt : String)
    (history : List Message) (user_message image_base64 : Option String)
    (phishing_case : Option PhishingCase)
    (phishing_category : Option PhishingCategory)
    (starting_message : Option String) (resp : GeminiChatResponse)
    (dbg : List DebugContent)
    (hok : get_chat_response o system_prompt history user_message image_base64
        phishing_case phishing_category starting_message = Except.ok (resp, dbg)) :
    resp.token_usage = o.countTokens (token_accounting_contents starting_message
        history user_message image_base64 o.image_mime) ∧
    token_accounting_contents starting_message history user_message image_base64
        o.image_mime =
      (chat_generate_request system_prompt history user_message image_base64
        o.image_mime phishing_case phishing_category starting_message).contents ∧
    "token_usage" ∉ (chat_generate_request system_prompt history user_message
        image_base64 o.image_mime phishing_case phishing_category
        starting_message).response_schema_properties ∧
    "token_usage" ∉ (chat_generate_request system_prompt history user_message
        image_base64 o.image_mime phishing_case phishing_category
        starting_message).response_schema_required := by
  refine ⟨?_, rfl,
    (by decide : "token_usage" ∉ response_schema_sent_properties),
    (by decide : "token_usage" ∉ response_schema_sent_required)⟩
  unfold get_chat_response at hok
  cases hav : o.available with
  | false => simp only [hav] at hok; cases hok
  | true =>
      simp only [hav] at hok
      cases hpr : o.provider with
      | apiError d => simp only [hpr] at hok; cases hok
      | replyNotJson => simp only [hpr] at hok; cases hok
      | replyJson raw =>
          simp only [hpr] at hok
          cases hv : validate_gemini_chat_response raw
              (o.countTokens (token_accounting_contents starting_message history
                user_message image_base64 o.image_mime)) with
          | none => simp only [hv] at hok; cases hok
          | some r =>
              simp only [hv, Except.ok.injEq, Prod.mk.injEq] at hok
              rw [← hok.1]
              exact validate_token_eq raw _ r hv

/-- Witness for the amended C7 at a concrete successful gateway call. -/
theorem C7_token_accounting_witness :
    (get_chat_response fxGwOK "sys" [] (some "hi") none none none none =
      Except.ok
        ({ response := "ai says hi", suggested_user_questions := ["q1"],
           progress_check := { status_summary := "s", is_ready_to_move_on := false },
           token_usage := 1, session_end_message := none,
           next_topic_suggestions := [] },
         [{ role := "user", parts := [some "hi"] }])) ∧
    ({ response := "ai says hi", suggested_user_questions := ["q1"],
       progress_check := { status_summary := "s", is_ready_to_move_on := false },
       token_usage := 1, session_end_message := none,
       next_topic_suggestions := [] } : GeminiChatResponse).token_usage =
      fxGwOK.countTokens (token_accounting_contents none [] (some "hi") none
        fxGwOK.image_mime) :=
  ⟨rfl,
   (C7_token_accounting fxGwOK "sys" [] (some "hi") none none none none _ _ rfl).1⟩

/-! ## Claim C8 -/

/-- Claim C8 counterexample: at a concrete non-JSON provider reply the
exchange aborts with status 503 carrying the malformed-response detail -
the same ServiceUnavailable status an unavailable provider produces - so
SendMessage does not fail with a distinct MalformedResponse kind (which
the gateway internally files under status 500). -/
theorem C8_malformed_counterexample :
    (send_new_message fxDb 1 { content := some "hi", image_base64 := none }
        fxUser fxOracleNotJson).result =
      Except.error (AppError.httpError 503
        "모델로부터 유효한 JSON 응답을 받지 못했습니다.") ∧
    (send_new_message fxDb 1 { content := some "hi", image_base64 := none }
        fxUser fxOracleApiError).result =
      Except.error (AppError.httpError 503 "Google API 오류: down") ∧
    GwError.invalidJson.httpStatus = some 500 ∧ (503 : Nat) ≠ 500 := by
  refine ⟨rfl, rfl, rfl, by decide⟩

/-- Claim C8 (amended): a provider reply that fails JSON parsing or schema
validation aborts the exchange - surfaced by SendMessage as a 503
ServiceUnavailable error wrapping the gateway 500 malformed-response
detail - and zero message rows or conversation-timestamp updates are
persisted. -/
theorem C8_malformed_zero_persistence (db : DB) (conversation_id : Nat)
    (message_in : MessageCreate) (current_user : AppUser) (o : SendOracle)
    (conv : Conversation) (persona : Persona)
    (hconv : get_conversation db conversation_id (some current_user.id) = some conv)
    (hp : get_persona db conv.persona_id = some persona)
    (hava : o.gw.available = true)
    (hbad : o.gw.provider = ProviderResult.replyNotJson ∨
      ∃ raw, o.gw.provider = ProviderResult.replyJson raw ∧
        validate_gemini_chat_response raw
          (o.gw.countTokens (token_accounting_contents persona.starting_message
            (get_messages_by_conversation db conversation_id 0 none true)
            message_in.content message_in.image_base64 o.gw.image_mime)) = none) :
    (∃ e : GwError, e.httpStatus = some 500 ∧
      (send_new_message db conversation_id message_in current_user o).result =
        Except.error (AppError.httpError 503 e.detail)) ∧
    (send_new_message db conversation_id message_in current_user o).db.messages =
      db.messages ∧
    (∀ x, conversation_last
        (send_new_message db conversation_id message_in current_user o).db x =
      conversation_last db x) ∧
    ((send_new_message db conversation_id message_in current_user o).trace.filter
      Event.isMessageOrTimestampWrite = []) := by
  have hgw : ∃ e : GwError, e.httpStatus = some 500 ∧
      get_chat_response o.gw persona.system_prompt
        (get_messages_by_conversation db conversation_id 0 none true)
        message_in.content message_in.image_base64
        (resolve_case_step db conv o.random_pick).2.2
        (((resolve_case_step db conv o.random_pick).2.2).bind
          (fun pc => get_category_by_code (resolve_case_step db conv o.random_pick).1
            pc.category_code))
        persona.starting_message = Except.error e := by
    rcases hbad with hnj | ⟨raw, hraw, hval⟩
    · refine ⟨GwError.invalidJson, rfl, ?_⟩
      unfold get_chat_response
      simp only [hava, hnj]
    · refine ⟨GwError.schemaViolation, rfl, ?_⟩
      unfold get_chat_response
      simp only [hava, hraw, hval]
  obtain ⟨e, he500, hgw⟩ := hgw
  obtain ⟨hres, hmsg, hlast, htr⟩ := send_failure_consequences db conversation_id
    message_in current_user o conv persona e hconv hp hgw
  exact ⟨⟨e, he500, hres⟩, hmsg, hlast, htr⟩

/-- Witness for the amended C8 at a concrete non-JSON reply. -/
theorem C8_malformed_zero_persistence_witness :
    (get_conversation fxDb 1 (some fxUser.id) = some fxConv ∧
     get_persona fxDb fxConv.persona_id = some fxPersona ∧
     fxOracleNotJson.gw.available = true ∧
     fxOracleNotJson.gw.provider = ProviderResult.replyNotJson) ∧
    ((∃ e : GwError, e.httpStatus = some 500 ∧
       (send_new_message fxDb 1 { content := some "hi", image_base64 := none }
          fxUser fxOracleNotJson).result =
         Except.error (AppError.httpError 503 e.detail)) ∧
     (send_new_message fxDb 1 { content := some "hi", image_base64 := none }
        fxUser fxOracleNotJson).db.messages = fxDb.messages ∧
     (∀ x, conversation_last
        (send_new_message fxDb 1 { content := some "hi", image_base64 := none }
          fxUser fxOracleNotJson).db x = conversation_last fxDb x) ∧
     ((send_new_message fxDb 1 { content := some "hi", image_base64 := none }
        fxUser fxOracleNotJson).trace.filter Event.isMessageOrTimestampWrite = [])) :=
  ⟨⟨by decide, by decide, rfl, rfl⟩,
   C8_malformed_zero_persistence fxDb 1 { content := some "hi", image_base64 := none }
     fxUser fxOracleNotJson fxConv fxPersona (by decide) (by decide) rfl (Or.inl rfl)⟩

/-! ## Claim C1 -/

/-- Claim C1 counterexample: at a concrete conversation with no bound case
and a non-empty pool, an exchange that aborts with ServiceUnavailable has
already committed a persistence write (the lazy scenario binding) before
the gateway call, so the gateway is not invoked before every persistence
write of the exchange. -/
theorem C1_write_before_gateway_counterexample :
    (send_new_message fxDb 1 { content := some "hi", image_base64 := none }
        fxUser fxOracleApiError).result =
      Except.error (AppError.httpError 503 "Google API 오류: down") ∧
    (((send_new_message fxDb 1 { content := some "hi", image_base64 := none }
        fxUser fxOracleApiError).trace.takeWhile
          (fun e => !e.isGatewayCall)).filter Event.isPersistenceWrite ≠ []) := by
  refine ⟨rfl, by decide⟩

/-- Claim C1 (amended): when the gateway call fails because the provider
is unavailable or the service is disabled, the exchange aborts with a 503
ServiceUnavailable error, no message rows are persisted and no
conversation timestamp is updated; the gateway is invoked before any
message-row or timestamp write (only the lazy scenario-binding write may
precede it). -/
theorem C1_provider_failure_no_writes (db : DB) (conversation_id : Nat)
    (message_in : MessageCreate) (current_user : AppUser) (o : SendOracle)
    (conv : Conversation) (persona : Persona)
    (hconv : get_conversation db conversation_id (some current_user.id) = some conv)
    (hp : get_persona db conv.persona_id = some persona)
    (hfail : o.gw.available = false ∨
      ∃ d, o.gw.provider = ProviderResult.apiError d) :
    (∃ d, (send_new_message db conversation_id message_in current_user o).result =
      Except.error (AppError.httpError 503 d)) ∧
    (send_new_message db conversation_id message_in current_user o).db.messages =
      db.messages ∧
    (∀ x, conversation_last
        (send_new_message db conversation_id message_in current_user o).db x =
      conversation_last db x) ∧
    ((send_new_message db conversation_id message_in current_user o).trace.filter
      Event.isMessageOrTimestampWrite = []) := by
  have hgw : ∃ e : GwError,
      get_chat_response o.gw persona.system_prompt
        (get_messages_by_conversation db conversation_id 0 none true)
        message_in.content message_in.image_base64
        (resolve_case_step db conv o.random_pick).2.2
        (((resolve_case_step db conv o.random_pick).2.2).bind
          (fun pc => get_category_by_code (resolve_case_step db conv o.random_pick).1
            pc.category_code))
        persona.starting_message = Except.error e := by
    rcases hfail with hoff | ⟨d, hd⟩
    · refine ⟨GwError.serviceDisabled, ?_⟩
      unfold get_chat_response
      simp only [hoff]
    · cases hav : o.gw.available with
      | false =>
          refine ⟨GwError.serviceDisabled, ?_⟩
          unfold get_chat_response
          simp only [hav]
      | true =>
          refine ⟨GwError.providerUnavailable d, ?_⟩
          unfold get_chat_response
          simp only [hav, hd]
  obtain ⟨e, hgw⟩ := hgw
  obtain ⟨hres, hmsg, hlast, htr⟩ := send_failure_consequences db conversation_id
    message_in current_user o conv persona e hconv hp hgw
  exact ⟨⟨e.detail, hres⟩, hmsg, hlast, htr⟩

/-- Witness for the amended C1 at a concrete unavailable provider. -/
theorem C1_provider_failure_no_writes_witness :
    (get_conversation fxDb 1 (some fxUser.id) = some fxConv ∧
     get_persona fxDb fxConv.persona_id = some fxPersona ∧
     fxOracleApiError.gw.provider = ProviderResult.apiError "down") ∧
    ((∃ d, (send_new_message fxDb 1 { content := some "hi", image_base64 := none }
        fxUser fxOracleApiError).result =
      Except.error (AppError.httpError 503 d)) ∧
     (send_new_message fxDb 1 { content := some "hi", image_base64 := none }
        fxUser fxOracleApiError).db.messages = fxDb.messages ∧
     (∀ x, conversation_last
        (send_new_message fxDb 1 { content := some "hi", image_base64 := none }
          fxUser fxOracleApiError).db x = conversation_last fxDb x) ∧
     ((send_new_message fxDb 1 { content := some "hi", image_base64 := none }
        fxUser fxOracleApiError).trace.filter Event.isMessageOrTimestampWrite = [])) :=
  ⟨⟨by decide, by decide, rfl⟩,
   C1_provider_failure_no_writes fxDb 1 { content := some "hi", image_base64 := none }
     fxUser fxOracleApiError fxConv fxPersona (by decide) (by decide)
     (Or.inr ⟨"down", rfl⟩)⟩

/-! ## More preservation lemmas -/

theorem db_conversation_frame_create_message (d : DB) (c : Option String)
    (cid : Nat) (s : SenderType) (t : Option Nat) (k : Option String) (x : Nat) :
    db_conversation_frame (create_message d c cid s t k).1 x =
      db_conversation_frame d x := rfl

theorem conversation_applied_create_message (d : DB) (c : Option String)
    (cid : Nat) (s : SenderType) (t : Option Nat) (k : Option String) (x : Nat) :
    conversation_applied (create_message d c cid s t k).1 x =
      conversation_applied d x := rfl

theorem conversation_found_create_message (d : DB) (c : Option String)
    (cid : Nat) (s : SenderType) (t : Option Nat) (k : Option String) (x : Nat) :
    conversation_found (create_message d c cid s t k).1 x =
      conversation_found d x := rfl

theorem conversation_found_touch (db : DB) (cid x : Nat) :
    conversation_found (update_conversation_last_message_at db cid) x =
      conversation_found db x :=
  conversation_found_eq_of_frame (db_conversation_frame_touch db cid x)

theorem create_message_messages (d : DB) (c : Option String) (cid : Nat)
    (s : SenderType) (t : Option Nat) (k : Option String) :
    (create_message d c cid s t k).1.messages =
      d.messages ++ [(create_message d c cid s t k).2] := rfl

theorem touch_next_message_id (db : DB) (cid : Nat) :
    (update_conversation_last_message_at db cid).next_message_id =
      db.next_message_id := by
  unfold update_conversation_last_message_at
  cases (db.messages.filter (fun m => m.conversation_id == cid)).getLast? <;> rfl

/-! ## Claim C10 counterexample -/

/-- Claim C10 counterexample: at a concrete conversation with no bound
case and a non-empty pool, the exchange pipeline changes the bound
scenario reference of the conversation (from none to case 1), so the
last-activity timestamp is not the only conversation field the exchange
ever changes. -/
theorem C10_frame_counterexample :
    conversation_applied (send_new_message fxDb 1
        { content := some "hi", image_base64 := none } fxUser fxOracleApiError).db 1 =
      some (some 1) ∧
    conversation_applied fxDb 1 = some none := by
  refine ⟨by decide, by decide⟩

/-- Claim C10 (amended): an exchange changes at most the conversation
last-activity timestamp and - only for the resolved conversation, and only
when it had no resolvable bound case - the bound scenario reference; the
owner, persona, title, identity and creation time of every stored
conversation are unchanged by the exchange. -/
theorem C10_exchange_frame (db : DB) (conversation_id : Nat)
    (message_in : MessageCreate) (current_user : AppUser) (o : SendOracle)
    (x : Nat) :
    db_conversation_frame (send_new_message db conversation_id message_in
        current_user o).db x = db_conversation_frame db x ∧
    (conversation_applied (send_new_message db conversation_id message_in
        current_user o).db x ≠ conversation_applied db x →
      ∃ conv, get_conversation db conversation_id (some current_user.id) = some conv ∧
        x = conv.id ∧
        conv.applied_phishing_case_id.bind (get_phishing_case_by_id db) = none) := by
  cases hconv : get_conversation db conversation_id (some current_user.id) with
  | none =>
      unfold send_new_message
      simp only [hconv]
      exact ⟨trivial, fun h => absurd rfl h⟩
  | some conv =>
      cases hp : get_persona db conv.persona_id with
      | none =>
          unfold send_new_message
          simp only [hconv, hp]
          exact ⟨trivial, fun h => absurd rfl h⟩
      | some persona =>
          cases hgw : get_chat_response o.gw persona.system_prompt
              (get_messages_by_conversation db conversation_id 0 none true)
              message_in.content message_in.image_base64
              (resolve_case_step db conv o.random_pick).2.2
              (((resolve_case_step db conv o.random_pick).2.2).bind
                (fun pc => get_category_by_code
                  (resolve_case_step db conv o.random_pick).1 pc.category_code))
              persona.starting_message with
          | error e =>
              rw [send_new_message_failure_eq db conversation_id message_in
                current_user o conv persona e hconv hp hgw]
              refine ⟨resolve_case_frame db conv o.random_pick x, fun h => ?_⟩
              obtain ⟨hx, hb⟩ := resolve_case_applied_change db conv o.random_pick x h
              exact ⟨conv, rfl, hx, hb⟩
          | ok val =>
              obtain ⟨resp, dbg⟩ := val
              rw [send_new_message_success_eq db conversation_id message_in
                current_user o conv persona resp dbg hconv hp hgw]
              constructor
              · simp only [db_conversation_frame_touch,
                  db_conversation_frame_create_message, resolve_case_frame]
              · intro h
                simp only [conversation_applied_touch,
                  conversation_applied_create_message] at h
                obtain ⟨hx, hb⟩ := resolve_case_applied_change db conv o.random_pick x h
                exact ⟨conv, rfl, hx, hb⟩

/-! ## Success-path helper lemmas -/

theorem create_message_snd (d : DB) (c : Option String) (cid : Nat)
    (s : SenderType) (t : Option Nat) (k : Option String) :
    (create_message d c cid s t k).2 =
      { id := d.next_message_id
        conversation_id := cid
        sender_type := s
        content := c.getD ""
        image_key := k
        gemini_token_usage := t
        created_at := d.clock } := rfl

theorem create_message_clock (d : DB) (c : Option String) (cid : Nat)
    (s : SenderType) (t : Option Nat) (k : Option String) :
    (create_message d c cid s t k).1.clock = d.clock + 1 := rfl

theorem create_message_next_id (d : DB) (c : Option String) (cid : Nat)
    (s : SenderType) (t : Option Nat) (k : Option String) :
    (create_message d c cid s t k).1.next_message_id = d.next_message_id + 1 := rfl

theorem s3step_key (img : Option String) (ok : Bool) (uuid : String)
    (tr : List Event) :
    (match img with
      | none => ((none : Option String), tr)
      | some _ =>
          if ok then (some ("messages/" ++ uuid ++ ".png"), tr ++ [Event.s3Upload true])
          else (none, tr ++ [Event.s3Upload false])).1 =
    (match img with
      | none => none
      | some _ => if ok then some ("messages/" ++ uuid ++ ".png") else none) := by
  cases img with
  | none => rfl
  | some b => cases ok <;> rfl

theorem conversation_last_after_insert (d : DB) (cid : Nat) (c : Option String)
    (s : SenderType) (t : Option Nat) (k : Option String)
    (hfound : conversation_found d cid = true) :
    conversation_last
        (update_conversation_last_message_at (create_message d c cid s t k).1 cid) cid
      = some d.clock := by
  refine conversation_last_touch_eq _ cid (create_message d c cid s t k).2 ?_ ?_
  · rw [create_message_messages]
    exact getLast?_filter_append_true _ _ _ (by simp [create_message_snd])
  · rw [conversation_found_create_message]; exact hfound

theorem send_success_consequences (db : DB) (conversation_id : Nat)
    (message_in : MessageCreate) (current_user : AppUser) (o : SendOracle)
    (conv : Conversation) (persona : Persona) (resp : GeminiChatResponse)
    (dbg : List DebugContent)
    (hconv : get_conversation db conversation_id (some current_user.id) = some conv)
    (hp : get_persona db conv.persona_id = some persona)
    (hgw : get_chat_response o.gw persona.system_prompt
        (get_messages_by_conversation db conversation_id 0 none true)
        message_in.content message_in.image_base64
        (resolve_case_step db conv o.random_pick).2.2
        (((resolve_case_step db conv o.random_pick).2.2).bind
          (fun pc => get_category_by_code (resolve_case_step db conv o.random_pick).1
            pc.category_code))
        persona.starting_message = Except.ok (resp, dbg)) :
    (send_new_message db conversation_id message_in current_user o).db.messages =
      db.messages ++
        [{ id := db.next_message_id
           conversation_id := conversation_id
           sender_type := SenderType.user
           content := message_in.content.getD ""
           image_key :=
             match message_in.image_base64 with
             | none => none
             | some _ =>
                 if o.s3_ok then some ("messages/" ++ o.upload_uuid ++ ".png")
                 else none
           gemini_token_usage := none
           created_at := db.clock },
         { id := db.next_message_id + 1
           conversation_id := conversation_id
           sender_type := SenderType.ai
           content := resp.response
           image_key := none
           gemini_token_usage := some resp.token_usage
           created_at := db.clock + 1 }] ∧
    conversation_last (send_new_message db conversation_id message_in current_user o).db
        conversation_id = some (db.clock + 1) ∧
    (∃ r, (send_new_message db conversation_id message_in current_user o).result =
      Except.ok r) := by
  rw [send_new_message_success_eq db conversation_id message_in current_user o
    conv persona resp dbg hconv hp hgw]
  refine ⟨?_, ?_, ⟨_, rfl⟩⟩
  · show (update_conversation_last_message_at _ _).messages = _
    rw [touch_messages, create_message_messages, touch_messages,
      create_message_messages, create_message_snd, create_message_snd]
    rw [s3step_key]
    rw [touch_clock, touch_next_message_id, create_message_clock,
      create_message_next_id, resolve_case_messages, resolve_case_clock,
      resolve_case_next_message_id, List.append_assoc]
    rfl
  · show conversation_last (update_conversation_last_message_at _ _) _ = _
    rw [conversation_last_after_insert]
    · rw [touch_clock, create_message_clock, resolve_case_clock]
    · rw [conversation_found_touch, conversation_found_create_message,
        resolve_case_found]
      exact conversation_found_of_get db conversation_id (some current_user.id)
        conv hconv

/-! ## Claim C2 -/

/-- Claim C2: a successful SendMessage persists exactly two new turns -
first a user turn, then an ai turn carrying the structured reply response
text and the gateway token usage - and afterwards the conversation
last-activity timestamp equals the ai turn creation time. -/
theorem C2_success_two_messages (db : DB) (conversation_id : Nat)
    (message_in : MessageCreate) (current_user : AppUser) (o : SendOracle)
    (conv : Conversation) (persona : Persona) (resp : GeminiChatResponse)
    (dbg : List DebugContent)
    (hconv : get_conversation db conversation_id (some current_user.id) = some conv)
    (hp : get_persona db conv.persona_id = some persona)
    (hgw : get_chat_response o.gw persona.system_prompt
        (get_messages_by_conversation db conversation_id 0 none true)
        message_in.content message_in.image_base64
        (resolve_case_step db conv o.random_pick).2.2
        (((resolve_case_step db conv o.random_pick).2.2).bind
          (fun pc => get_category_by_code (resolve_case_step db conv o.random_pick).1
            pc.category_code))
        persona.starting_message = Except.ok (resp, dbg)) :
    ∃ um am : Message,
      (send_new_message db conversation_id message_in current_user o).db.messages =
        db.messages ++ [um, am] ∧
      um.sender_type = SenderType.user ∧ um.conversation_id = conversation_id ∧
      am.sender_type = SenderType.ai ∧ am.conversation_id = conversation_id ∧
      am.content = resp.response ∧
      am.gemini_token_usage = some resp.token_usage ∧
      conversation_last (send_new_message db conversation_id message_in
        current_user o).db conversation_id = some am.created_at ∧
      (∃ r, (send_new_message db conversation_id message_in current_user o).result =
        Except.ok r) := by
  obtain ⟨hmsg, hlast, hres⟩ := send_success_consequences db conversation_id
    message_in current_user o conv persona resp dbg hconv hp hgw
  exact ⟨_, _, hmsg, rfl, rfl, rfl, rfl, rfl, rfl, hlast, hres⟩

/-- Witness for C2 at a concrete successful exchange. -/
theorem C2_success_two_messages_witness :
    (get_conversation fxDb 1 (some fxUser.id) = some fxConv ∧
     get_persona fxDb fxConv.persona_id = some fxPersona) ∧
    (∃ um am : Message,
      (send_new_message fxDb 1 { content := some "hi", image_base64 := none }
          fxUser fxOracleOK).db.messages = fxDb.messages ++ [um, am] ∧
      um.sender_type = SenderType.user ∧ um.conversation_id = 1 ∧
      am.sender_type = SenderType.ai ∧ am.conversation_id = 1 ∧
      am.content = "ai says hi" ∧
      am.gemini_token_usage = some 2 ∧
      conversation_last (send_new_message fxDb 1
        { content := some "hi", image_base64 := none } fxUser fxOracleOK).db 1 =
        some am.created_at ∧
      (∃ r, (send_new_message fxDb 1 { content := some "hi", image_base64 := none }
          fxUser fxOracleOK).result = Except.ok r)) :=
  ⟨⟨by decide, by decide⟩,
   C2_success_two_messages fxDb 1 { content := some "hi", image_base64 := none }
     fxUser fxOracleOK fxConv fxPersona
     { response := "ai says hi", suggested_user_questions := ["q1"],
       progress_check := { status_summary := "s", is_ready_to_move_on := false },
       token_usage := 2, session_end_message := none, next_topic_suggestions := [] }
     [{ role := "model", parts := [some "hello"] },
      { role := "user", parts := [some "hi"] }]
     (by decide) (by decide) rfl⟩

/-! ## Claim C9 -/

/-- Claim C9: an exchange that carries an attachment and whose
object-storage upload fails after a successful AI reply still succeeds -
the user turn is persisted without an attachment reference, the ai turn is
persisted, and no error is returned. -/
theorem C9_storage_failure_swallowed (db : DB) (conversation_id : Nat)
    (message_in : MessageCreate) (current_user : AppUser) (o : SendOracle)
    (conv : Conversation) (persona : Persona) (resp : GeminiChatResponse)
    (dbg : List DebugContent) (b : String)
    (hconv : get_conversation db conversation_id (some current_user.id) = some conv)
    (hp : get_persona db conv.persona_id = some persona)
    (hgw : get_chat_response o.gw persona.system_prompt
        (get_messages_by_conversation db conversation_id 0 none true)
        message_in.content message_in.image_base64
        (resolve_case_step db conv o.random_pick).2.2
        (((resolve_case_step db conv o.random_pick).2.2).bind
          (fun pc => get_category_by_code (resolve_case_step db conv o.random_pick).1
            pc.category_code))
        persona.starting_message = Except.ok (resp, dbg))
    (himg : message_in.image_base64 = some b) (hs3 : o.s3_ok = false) :
    ∃ um am : Message,
      (send_new_message db conversation_id message_in current_user o).db.messages =
        db.messages ++ [um, am] ∧
      um.sender_type = SenderType.user ∧ um.image_key = none ∧
      am.sender_type = SenderType.ai ∧
      (∃ r, (send_new_message db conversation_id message_in current_user o).result =
        Except.ok r) := by
  obtain ⟨hmsg, hlast, hres⟩ := send_success_consequences db conversation_id
    message_in current_user o conv persona resp dbg hconv hp hgw
  rw [himg, hs3] at hmsg
  exact ⟨_, _, hmsg, rfl, rfl, rfl, hres⟩

/-- Witness for C9 at a concrete attachment exchange with failing S3. -/
theorem C9_storage_failure_swallowed_witness :
    (get_conversation fxDb 1 (some fxUser.id) = some fxConv ∧
     get_persona fxDb fxConv.persona_id = some fxPersona ∧
     fxOracleS3Down.s3_ok = false) ∧
    (∃ um am : Message,
      (send_new_message fxDb 1 { content := some "hi", image_base64 := some "AAA" }
          fxUser fxOracleS3Down).db.messages = fxDb.messages ++ [um, am] ∧
      um.sender_type = SenderType.user ∧ um.image_key = none ∧
      am.sender_type = SenderType.ai ∧
      (∃ r, (send_new_message fxDb 1 { content := some "hi", image_base64 := some "AAA" }
          fxUser fxOracleS3Down).result = Except.ok r)) :=
  ⟨⟨by decide, by decide, rfl⟩,
   C9_storage_failure_swallowed fxDb 1
     { content := some "hi", image_base64 := some "AAA" } fxUser fxOracleS3Down
     fxConv fxPersona
     { response := "ai says hi", suggested_user_questions := ["q1"],
       progress_check := { status_summary := "s", is_ready_to_move_on := false },
       token_usage := 2, session_end_message := none, next_topic_suggestions := [] }
     [{ role := "model", parts := [some "hello"] },
      { role := "user", parts := [some "hi", none] }]
     "AAA" (by decide) (by decide) rfl rfl rfl⟩

/-! ## Claim C6 -/

/-- Claim C6 counterexample: at a concrete attachment-only input the
gateway is handed the absent text - the empty input itself - and no
substituted describe-this-image prompt is handed at all. -/
theorem C6_no_substitute_prompt_counterexample :
    Event.gatewayCall none true ∈
      (send_new_message fxDb 1 { content := none, image_base64 := some "AAA" }
        fxUser fxOracleOK).trace ∧
    ∀ s : String, Event.gatewayCall (some s) true ∉
      (send_new_message fxDb 1 { content := none, image_base64 := some "AAA" }
        fxUser fxOracleOK).trace := by
  have htr : (send_new_message fxDb 1 { content := none, image_base64 := some "AAA" }
      fxUser fxOracleOK).trace =
      [Event.storeRandomQuery none, Event.bindCaseWrite 1 1,
       Event.gatewayCall none true, Event.s3Upload true,
       Event.insertMessage 1 SenderType.user, Event.touchConversation 1,
       Event.insertMessage 1 SenderType.ai, Event.touchConversation 1] := by decide
  rw [htr]
  refine ⟨by decide, fun s => ?_⟩
  simp

/-- Claim C6 (amended): the text handed to the AI Response Gateway is the
original message content, unchanged - an exchange that carries an
attachment but no text hands the empty input to the gateway. -/
theorem C6_gateway_gets_original_text (db : DB) (conversation_id : Nat)
    (message_in : MessageCreate) (current_user : AppUser) (o : SendOracle)
    (conv : Conversation) (persona : Persona)
    (hconv : get_conversation db conversation_id (some current_user.id) = some conv)
    (hp : get_persona db conv.persona_id = some persona) :
    Event.gatewayCall message_in.content message_in.image_base64.isSome ∈
      (send_new_message db conversation_id message_in current_user o).trace := by
  cases hgw : get_chat_response o.gw persona.system_prompt
      (get_messages_by_conversation db conversation_id 0 none true)
      message_in.content message_in.image_base64
      (resolve_case_step db conv o.random_pick).2.2
      (((resolve_case_step db conv o.random_pick).2.2).bind
        (fun pc => get_category_by_code (resolve_case_step db conv o.random_pick).1
          pc.category_code))
      persona.starting_message with
  | error e =>
      rw [send_new_message_failure_eq db conversation_id message_in current_user o
        conv persona e hconv hp hgw]
      simp
  | ok val =>
      obtain ⟨resp, dbg⟩ := val
      rw [send_new_message_success_eq db conversation_id message_in current_user o
        conv persona resp dbg hconv hp hgw]
      cases himg : message_in.image_base64 with
      | none => simp [himg]
      | some b => cases hs3 : o.s3_ok <;> simp [himg, hs3]

/-- Witness for the amended C6 at a concrete attachment-only input. -/
theorem C6_gateway_gets_original_text_witness :
    (get_conversation fxDb 1 (some fxUser.id) = some fxConv ∧
     get_persona fxDb fxConv.persona_id = some fxPersona) ∧
    Event.gatewayCall (none : Option String) true ∈
      (send_new_message fxDb 1 { content := none, image_base64 := some "AAA" }
        fxUser fxOracleOK).trace :=
  ⟨⟨by decide, by decide⟩,
   C6_gateway_gets_original_text fxDb 1
     { content := none, image_base64 := some "AAA" } fxUser fxOracleOK
     fxConv fxPersona (by decide) (by decide)⟩

/-! ## Lifecycle helper lemmas -/

theorem touch_phishing_cases (db : DB) (cid : Nat) :
    (update_conversation_last_message_at db cid).phishing_cases =
      db.phishing_cases := by
  unfold update_conversation_last_message_at
  cases (db.messages.filter (fun m => m.conversation_id == cid)).getLast? <;> rfl

theorem set_applied_phishing_cases (db : DB) (cid k : Nat) :
    (set_applied_phishing_case db cid k).phishing_cases = db.phishing_cases := rfl

theorem create_conversation_phishing_cases (db : DB) (pid : Nat)
    (title : Option String) (uid : Nat) :
    (create_conversation db pid title uid).1.phishing_cases =
      db.phishing_cases := rfl

theorem create_message_phishing_cases (d : DB) (c : Option String) (cid : Nat)
    (s : SenderType) (t : Option Nat) (k : Option String) :
    (create_message d c cid s t k).1.phishing_cases = d.phishing_cases := rfl

theorem create_conversation_base_phishing_cases (db : DB) (persona : Persona)
    (u : AppUser) (title : Option String) (pc : Option PhishingCase) :
    (create_conversation_base db persona u title pc).2.1.phishing_cases =
      db.phishing_cases := by
  cases pc with
  | none =>
      cases hsm : persona.starting_message with
      | none => simp [create_conversation_base, hsm, create_conversation_phishing_cases]
      | some s =>
          simp only [create_conversation_base, create_ai_message, hsm]
          split <;> simp [touch_phishing_cases, create_message_phishing_cases,
            create_conversation_phishing_cases, set_applied_phishing_cases]
  | some c =>
      cases hsm : persona.starting_message with
      | none => simp [create_conversation_base, hsm, set_applied_phishing_cases,
          create_conversation_phishing_cases]
      | some s =>
          simp only [create_conversation_base, create_ai_message, hsm]
          split <;> simp [touch_phishing_cases, create_message_phishing_cases,
            create_conversation_phishing_cases, set_applied_phishing_cases]

theorem create_conversation_base_no_synth (db : DB) (persona : Persona)
    (u : AppUser) (title : Option String) (pc : Option PhishingCase)
    (cat : String) :
    Event.synthesizeCase cat ∉ (create_conversation_base db persona u title pc).1 := by
  cases pc with
  | none =>
      cases hsm : persona.starting_message with
      | none => simp [create_conversation_base, hsm]
      | some s =>
          simp only [create_conversation_base, create_ai_message, hsm]
          split <;> simp
  | some c =>
      cases hsm : persona.starting_message with
      | none => simp [create_conversation_base, hsm]
      | some s =>
          simp only [create_conversation_base, create_ai_message, hsm]
          split <;> simp

theorem get_random_phishing_case_none_iff (db : DB) (cat : String) (pick : Nat) :
    get_random_phishing_case db (some cat) pick = none ↔
      db.phishing_cases.filter (fun p => p.category_code == cat) = [] := by
  unfold get_random_phishing_case
  constructor
  · intro h
    by_contra hne
    have hlen : 0 < (db.phishing_cases.filter
        (fun p => p.category_code == cat)).length := List.length_pos.mpr hne
    rw [List.getElem?_eq_getElem (Nat.mod_lt _ hlen)] at h
    cases h
  · intro h
    simp only [h]
    rfl

theorem head_isSome_filter_append (l : List Conversation) (p : Conversation → Bool)
    (c : Conversation) (hc : p c = true) :
    (((l ++ [c]).filter p).head?).isSome = true := by
  induction l with
  | nil => simp [List.filter, hc]
  | cons a t ih =>
      rw [List.cons_append, List.filter_cons]
      cases h : p a
      · simpa using ih
      · simp

theorem conversation_found_create_conversation (db : DB) (pid : Nat)
    (title : Option String) (uid : Nat) :
    conversation_found (create_conversation db pid title uid).1
      db.next_conversation_id = true := by
  unfold conversation_found create_conversation
  rw [get_conversation_none_eq]
  exact head_isSome_filter_append db.conversations _ _ (by simp)

theorem conversation_found_set_applied (db : DB) (cid k x : Nat) :
    conversation_found (set_applied_phishing_case db cid k) x =
      conversation_found db x :=
  conversation_found_eq_of_frame (db_conversation_frame_set_applied db cid k x)

/-! ## Claim C4 -/

/-- Claim C4: the forceFresh policy always invokes the Synthesizer and
persists a new scenario, even when a stored scenario for the requested
category exists; the category policy invokes the Synthesizer exactly when
the store holds no scenario matching the category. -/
theorem C4_scenario_policy (db : DB) (persona_id : Nat) (cat : String)
    (title : Option String) (u : AppUser) (o : ConvOracle)
    (persona : Persona) (catObj : PhishingCategory) (tc : String × String)
    (hp : get_persona db persona_id = some persona)
    (hcat : get_category_by_code db cat = some catObj)
    (hsynth : o.synth = Except.ok tc)
    (_hstored : ∃ pc ∈ db.phishing_cases, pc.category_code = cat) :
    (Event.synthesizeCase cat ∈
        (start_conversation_with_ai_case db persona_id cat title u o).trace ∧
     Event.persistCase cat ∈
        (start_conversation_with_ai_case db persona_id cat title u o).trace ∧
     (start_conversation_with_ai_case db persona_id cat title u
        o).db.phishing_cases.length = db.phishing_cases.length + 1) ∧
    (Event.synthesizeCase cat ∈
        (start_conversation_with_category db persona_id cat title u o).trace ↔
     db.phishing_cases.filter (fun p => p.category_code == cat) = []) := by
  constructor
  · unfold start_conversation_with_ai_case
    simp only [hp]
    unfold get_or_create_phishing_case
    simp only [hcat, hsynth]
    refine ⟨by simp, by simp, ?_⟩
    rw [create_conversation_base_phishing_cases]
    simp [create_phishing_case]
  · cases hr : get_random_phishing_case db (some cat) o.random_pick with
    | some pc =>
        unfold start_conversation_with_category
        simp only [hp]
        unfold get_or_create_phishing_case
        simp only [hr]
        constructor
        · intro h
          rcases List.mem_append.mp h with h1 | h2
          · simp at h1
          · exact absurd h2 (create_conversation_base_no_synth db persona u title
              (some pc) cat)
        · intro hempty
          rw [(get_random_phishing_case_none_iff db cat o.random_pick).mpr hempty] at hr
          cases hr
    | none =>
        unfold start_conversation_with_category
        simp only [hp]
        unfold get_or_create_phishing_case
        simp only [hr, hcat, hsynth]
        constructor
        · intro _
          exact (get_random_phishing_case_none_iff db cat o.random_pick).mp hr
        · intro _
          simp

/-- Witness for C4 at a concrete store that already holds a SMISHING
scenario. -/
theorem C4_scenario_policy_witness :
    (get_persona fxDb 1 = some fxPersona ∧
     get_category_by_code fxDb "SMISHING" = some fxCat ∧
     fxConvOracle.synth = Except.ok ("T", "C") ∧
     (∃ pc ∈ fxDb.phishing_cases, pc.category_code = "SMISHING")) ∧
    ((Event.synthesizeCase "SMISHING" ∈
        (start_conversation_with_ai_case fxDb 1 "SMISHING" none fxUser
          fxConvOracle).trace ∧
      Event.persistCase "SMISHING" ∈
        (start_conversation_with_ai_case fxDb 1 "SMISHING" none fxUser
          fxConvOracle).trace ∧
      (start_conversation_with_ai_case fxDb 1 "SMISHING" none fxUser
        fxConvOracle).db.phishing_cases.length =
        fxDb.phishing_cases.length + 1) ∧
     (Event.synthesizeCase "SMISHING" ∈
        (start_conversation_with_category fxDb 1 "SMISHING" none fxUser
          fxConvOracle).trace ↔
      fxDb.phishing_cases.filter (fun p => p.category_code == "SMISHING") = [])) :=
  ⟨⟨by decide, by decide, rfl, by decide⟩,
   C4_scenario_policy fxDb 1 "SMISHING" none fxUser fxConvOracle fxPersona fxCat
     ("T", "C") (by decide) (by decide) rfl (by decide)⟩

/-! ## Claim C5 -/

/-- Claim C5 counterexample: at a concrete StartConversation call the
first side effect (index 0 of the trace) is the scenario-resolution store
query and the conversation row is only created at index 1, so the bare
conversation row is not created before the scenario is resolved. -/
theorem C5_order_counterexample :
    (start_new_conversation fxDb 1 none fxUser fxConvOracle).trace.findIdx
        (fun e => match e with
          | Event.storeRandomQuery _ => true
          | Event.synthesizeCase _ => true
          | _ => false) = 0 ∧
    (start_new_conversation fxDb 1 none fxUser fxConvOracle).trace.findIdx
        (fun e => match e with
          | Event.createConversationRow _ => true
          | _ => false) = 1 := by
  refine ⟨by decide, by decide⟩

/-- Claim C5 (amended): StartConversation resolves the scenario first,
then creates the bare conversation row, then binds the scenario to it,
then - when the persona defines a non-empty opening line - seeds an
AI-authored first turn with zero token cost and advances the conversation
last-activity timestamp to that turn creation time. -/
theorem C5_side_effect_order (db : DB) (persona_id : Nat) (title : Option String)
    (u : AppUser) (o : ConvOracle) (persona : Persona) (rc : PhishingCase)
    (s : String)
    (hp : get_persona db persona_id = some persona)
    (hrand : get_random_phishing_case db none o.random_pick = some rc)
    (hsm : persona.starting_message = some s) (hs : s ≠ "") :
    (start_new_conversation db persona_id title u o).trace =
      [Event.storeRandomQuery none,
       Event.createConversationRow db.next_conversation_id,
       Event.bindCaseWrite db.next_conversation_id rc.id,
       Event.insertMessage db.next_conversation_id SenderType.ai,
       Event.touchConversation db.next_conversation_id] ∧
    ∃ m : Message,
      (start_new_conversation db persona_id title u o).db.messages =
        db.messages ++ [m] ∧
      m.sender_type = SenderType.ai ∧ m.content = s ∧
      m.gemini_token_usage = some 0 ∧
      conversation_last (start_new_conversation db persona_id title u o).db
        db.next_conversation_id = some m.created_at := by
  unfold start_new_conversation
  simp only [hp]
  unfold get_or_create_phishing_case
  simp only [hrand]
  unfold create_conversation_base create_ai_message
  simp only [hsm]
  rw [if_pos hs]
  refine ⟨rfl,
    ⟨{ id := db.next_message_id, conversation_id := db.next_conversation_id,
       sender_type := SenderType.ai, content := s, image_key := none,
       gemini_token_usage := some 0, created_at := db.clock + 1 }, ?_, rfl, rfl, rfl, ?_⟩⟩
  · show (update_conversation_last_message_at _ _).messages = _
    rw [touch_messages, create_message_messages, create_message_snd]
    rfl
  · exact conversation_last_after_insert _ _ _ _ _ _
      (by rw [conversation_found_set_applied]
          exact conversation_found_create_conversation db persona.id title u.id)

/-- Witness for the amended C5 at a concrete store and persona. -/
theorem C5_side_effect_order_witness :
    (get_persona fxDb 1 = some fxPersona ∧
     get_random_phishing_case fxDb none fxConvOracle.random_pick = some fxCase ∧
     fxPersona.starting_message = some "hello" ∧ "hello" ≠ "") ∧
    ((start_new_conversation fxDb 1 none fxUser fxConvOracle).trace =
      [Event.storeRandomQuery none,
       Event.createConversationRow fxDb.next_conversation_id,
       Event.bindCaseWrite fxDb.next_conversation_id fxCase.id,
       Event.insertMessage fxDb.next_conversation_id SenderType.ai,
       Event.touchConversation fxDb.next_conversation_id] ∧
     ∃ m : Message,
      (start_new_conversation fxDb 1 none fxUser fxConvOracle).db.messages =
        fxDb.messages ++ [m] ∧
      m.sender_type = SenderType.ai ∧ m.content = "hello" ∧
      m.gemini_token_usage = some 0 ∧
      conversation_last (start_new_conversation fxDb 1 none fxUser fxConvOracle).db
        fxDb.next_conversation_id = some m.created_at) :=
  ⟨⟨by decide, by decide, rfl, by decide⟩,
   C5_side_effect_order fxDb 1 none fxUser fxConvOracle fxPersona fxCase "hello"
     (by decide) (by decide) rfl (by decide)⟩

/-- Witness for the amended C10 at a concrete exchange. -/
theorem C10_exchange_frame_witness :
    db_conversation_frame (send_new_message fxDb 1
        { content := some "hi", image_base64 := none } fxUser fxOracleApiError).db 1 =
      db_conversation_frame fxDb 1 ∧
    (conversation_applied (send_new_message fxDb 1
        { content := some "hi", image_base64 := none } fxUser fxOracleApiError).db 1 ≠
      conversation_applied fxDb 1 →
      ∃ conv, get_conversation fxDb 1 (some fxUser.id) = some conv ∧
        (1 : Nat) = conv.id ∧
        conv.applied_phishing_case_id.bind (get_phishing_case_by_id fxDb) = none) :=
  C10_exchange_frame fxDb 1 { content := some "hi", image_base64 := none }
    fxUser fxOracleApiError 1

